import Mathlib

/-!
Verification model of src/pytrade/connector/quik/QuikConnector.py.

Python methods are modelled as functions from a connector state to a Step
record holding the new state, the list of observable events emitted
(socket sends, logger calls, feed-callback invocations) and an optional
uncaught Python exception.  Leading underscores of the Python names are
dropped.  JSON values produced by json.loads are modelled by JVal; the
stdlib JSON parser and the byte-level text codec are abstracted as
function parameters (decode and byteDecode) since they are not part of
this repository.  Feed callbacks are opaque and named by natural numbers;
an invocation is recorded as an event that carries the connection status
at the moment of the call, plus the four arguments the code passes.
JSON numbers are modelled as integers: the connector never computes with
them, it only moves them around.
-/

namespace PyTrade

/-- Model of a Python value decoded from JSON by json.loads. -/
inductive JVal : Type where
  | null : JVal
  | bool (b : Bool) : JVal
  | num (n : Int) : JVal
  | str (s : String) : JVal
  | arr (items : List JVal) : JVal
  | obj (fields : List (String × JVal)) : JVal

/-- Uncaught Python exception kinds relevant to the connector. -/
inductive PyErr : Type where
  | connectionError (text : String) : PyErr
  | keyError : PyErr
  | typeError : PyErr
  | indexError : PyErr
deriving DecidableEq

/-- First-match lookup in the field list of a decoded JSON object
(json.loads keeps one binding per key, so the list is duplicate-free). -/
def jlookup (fields : List (String × JVal)) (k : String) : Option JVal :=
  match fields with
  | [] => none
  | (k2, v) :: rest => if k2 = k then some v else jlookup rest k

/-- Python subscription v[k] with a string key: KeyError on a dict without
the key, TypeError on non-dict values. -/
def getItem (v : JVal) (k : String) : Except PyErr JVal :=
  match v with
  | .obj fields =>
      match jlookup fields k with
      | some x => Except.ok x
      | none => Except.error PyErr.keyError
  | _ => Except.error PyErr.typeError

/-- Python subscription v[0]: first element of a list, first character of
a string, KeyError on a JSON dict (string keys only), TypeError otherwise. -/
def index0 (v : JVal) : Except PyErr JVal :=
  match v with
  | .arr (x :: _) => Except.ok x
  | .arr [] => Except.error PyErr.indexError
  | .str s =>
      match s.data with
      | c :: _ => Except.ok (JVal.str (String.mk [c]))
      | [] => Except.error PyErr.indexError
  | .obj _ => Except.error PyErr.keyError
  | _ => Except.error PyErr.typeError

/-- Python truthiness of a decoded JSON value. -/
def JVal.truthy : JVal → Bool
  | .null => false
  | .bool b => b
  | .num n => n != 0
  | .str s => s != ""
  | .arr items => !items.isEmpty
  | .obj fields => !fields.isEmpty

/-- Connection status enum of QuikConnector.Status. -/
inductive Status : Type where
  | disconnected : Status
  | connecting : Status
  | connected : Status
deriving DecidableEq

/-- Mutable state of one QuikConnector instance.  The sock field models
self.sock: none while the field still holds None, some true once a socket
object is assigned and open, some false after close() was called on it
(the Python code never assigns None again, it only closes). -/
structure ConnectorState : Type where
  host : String
  port : Nat
  passwd : String
  account : String
  sock : Option Bool
  last_trans_id : Nat
  status : Status
  feed_callbacks : List ((String × String) × Nat)
deriving DecidableEq

/-- Observable events of a method run, in emission order. -/
inductive Event : Type where
  | sent (encoding : String) (payload : String) : Event
  | handlerCall (msg : JVal) : Event
  | invokedFeed (statusAt : Status) (cb : Nat)
      (classCode secCode : String) (price qty : JVal) : Event
  | logged (text : String) : Event
  | loggedVal (fmt : String) (v : JVal) : Event
  | loggedRaw (fmt : String) (raw : List Nat) : Event
  | printed (text : String) : Event

/-- Result of running a modelled method: final state, emitted events and
an uncaught exception when one escaped. -/
structure Step : Type where
  st : ConnectorState
  evs : List Event
  err : Option PyErr

/-- Normal completion. -/
def stepOk (st : ConnectorState) (evs : List Event) : Step :=
  ⟨st, evs, none⟩

/-- Completion by an uncaught exception, with the events emitted before
the raise. -/
def stepErr (st : ConnectorState) (evs : List Event) (e : PyErr) : Step :=
  ⟨st, evs, some e⟩

/-- Sequencing of two modelled statements: the second runs only when the
first did not raise, and events accumulate. -/
def Step.andThen (r : Step) (f : ConnectorState → Step) : Step :=
  match r.err with
  | some _ => r
  | none =>
      let r2 := f r.st
      ⟨r2.st, r.evs ++ r2.evs, r2.err⟩

/-- Source constant _MSG_ID_AUTH. -/
def MSG_ID_AUTH : String := "msg_auth"

/-- Source constant _MSG_ID_CREATE_DATASOURCE. -/
def MSG_ID_CREATE_DATASOURCE : String := "msg_create_ds"

/-- Source constant _MSG_DELIMITER. -/
def MSG_DELIMITER : String := "message:"

/-- Source constant msg_encoding, the codepage used to decode incoming
chunks. -/
def msg_encoding : String := "1251"

/-- Python str.split with a non-empty separator, scanning left to right
for the leftmost non-overlapping occurrences; fuel bounds the recursion
by the length of the remaining text. -/
def pySplitAux (sep : List Char) : Nat → List Char → List Char → List (List Char)
  | _, acc, [] => [acc.reverse]
  | 0, acc, s => [acc.reverse ++ s]
  | fuel + 1, acc, c :: rest =>
      if sep.isPrefixOf (c :: rest) then
        acc.reverse :: pySplitAux sep fuel [] ((c :: rest).drop sep.length)
      else
        pySplitAux sep fuel (c :: acc) rest

/-- Python s.split(sep) for a non-empty sep, as used on the delimiter. -/
def pySplit (sep s : String) : List String :=
  (pySplitAux sep.data s.data.length [] s.data).map String.mk

/-- Fixed-order insertion used to model Python dict assignment on
self.feed_callbacks: overwriting a key keeps its original position, a
fresh key is appended. -/
def insertFeedCallback (key : String × String) (cb : Nat) :
    List ((String × String) × Nat) → List ((String × String) × Nat)
  | [] => [(key, cb)]
  | (k, v) :: rest =>
      if k = key then (k, cb) :: rest
      else (k, v) :: insertFeedCallback key cb rest

/-- Python dict .get on self.feed_callbacks with a (string, string) key. -/
def lookupFeedCallback (key : String × String) :
    List ((String × String) × Nat) → Option Nat
  | [] => none
  | (k, v) :: rest => if k = key then some v else lookupFeedCallback key rest

/-- Number of entries stored under a key in the registry list. -/
def countKey (key : String × String) (l : List ((String × String) × Nat)) : Nat :=
  (l.filter (fun p => decide (p.1 = key))).length

/-- Text of the auth request built in _auth. -/
def authMsg (passwd : String) : String :=
  "\x7b \"id\": \"" ++ MSG_ID_AUTH ++ "\" , \"method\": \"checkSecurity\", \"args\": [\"" ++
    passwd ++ "\"] \x7d"

/-- Model of _connect_sock: set status to CONNECTING, create and connect
the socket. -/
def connect_sock (st : ConnectorState) : Step :=
  let st1 := { st with status := Status.connecting }
  let st2 := { st1 with sock := some true }
  stepOk st2
    [ Event.logged ("Connecting to " ++ st.host ++ ":" ++ toString st.port),
      Event.logged ("Connected to " ++ st.host ++ ":" ++ toString st.port) ]

/-- Model of _auth: build the checkSecurity request and send it encoded
with UTF-8 (bytes(msg, UTF-8) in the source). -/
def auth (st : ConnectorState) : Step :=
  let msg := authMsg st.passwd
  stepOk st
    [ Event.logged ("Sending message: " ++ msg),
      Event.sent "UTF-8" msg ]

/-- Model of _on_auth: read result[0]; raise ConnectionError when falsy,
otherwise set status to CONNECTED and log. -/
def on_auth (st : ConnectorState) (msg : JVal) : Step :=
  match getItem msg "result" with
  | Except.error e => stepErr st [] e
  | Except.ok result =>
      match index0 result with
      | Except.error e => stepErr st [] e
      | Except.ok auth_result =>
          if auth_result.truthy then
            stepOk { st with status := Status.connected } [ Event.logged "Connected" ]
          else
            stepErr st [] (PyErr.connectionError "Quik LUA authentication failed")

/-- Text of a CreateDataSource request built in _create_datasource. -/
def create_datasource_msg (sec_name sec_code : String) : String :=
  MSG_DELIMITER ++ "\x7b\"id\": \"" ++ MSG_ID_CREATE_DATASOURCE ++ "_" ++ sec_name ++
    "_" ++ sec_code ++ "\",\"method\": \"CreateDataSource\",\"args\": [\"" ++ sec_name ++
    "\", \"" ++ sec_code ++ "\", \"INTERVAL_TICK\"]\x7d"

/-- Model of _create_datasource: log and send the request, UTF-8 encoded. -/
def create_datasource (st : ConnectorState) (sec_name sec_code : String) : Step :=
  let msg := create_datasource_msg sec_name sec_code
  stepOk st
    [ Event.logged ("Sending msg: " ++ msg),
      Event.sent "UTF-8" msg ]

/-- Model of subscribe: record the callback under (sec_name, sec_code),
then issue CreateDataSource immediately only when already CONNECTED. -/
def subscribe (st : ConnectorState) (sec_name sec_code : String)
    (feed_callback : Nat) : Step :=
  let st2 := { st with
    feed_callbacks := insertFeedCallback (sec_name, sec_code) feed_callback st.feed_callbacks }
  if st2.status = Status.connected then
    create_datasource st2 sec_name sec_code
  else
    stepOk st2 []

/-- Iteration of _create_subscribers_datasources over the registry items.
The source unpacks each key as (sec_code, sec_name) and passes the two
components through in that same order, so the net effect is
_create_datasource(first component, second component) of each stored key. -/
def create_datasources_loop (st : ConnectorState) :
    List ((String × String) × Nat) → Step
  | [] => stepOk st []
  | ((a, b), _) :: rest =>
      (create_datasource st a b).andThen fun st2 =>
        create_datasources_loop st2 rest

/-- Model of _create_subscribers_datasources. -/
def create_subscribers_datasources (st : ConnectorState) : Step :=
  create_datasources_loop st st.feed_callbacks

/-- Model of _on_create_datasource: read result[0] and log it. -/
def on_create_datasource (st : ConnectorState) (msg : JVal) : Step :=
  match getItem msg "result" with
  | Except.error e => stepErr st [] e
  | Except.ok result =>
      match index0 result with
      | Except.error e => stepErr st [] e
      | Except.ok datasource_id =>
          stepOk st [ Event.loggedVal "Created datasource id: %s" datasource_id ]

/-- Model of _on_trans_reply: log the embedded result_msg when the result
is a dict, otherwise log the raw result. -/
def on_trans_reply (st : ConnectorState) (msg : JVal) : Step :=
  match getItem msg "result" with
  | Except.error e => stepErr st [] e
  | Except.ok result =>
      match result with
      | JVal.obj fields =>
          match jlookup fields "result_msg" with
          | some m => stepOk st [ Event.loggedVal "%s" m ]
          | none => stepErr st [] PyErr.keyError
      | _ => stepOk st [ Event.loggedVal "Result: %s" result ]

/-- Model of _on_all_trade: guard on callback_name, extract class code and
security code, look up the feed callback and, when present, log and invoke
it with (class_code, sec_name, price, qty).  The lookup models Python dict
.get with a tuple key: list or dict components are unhashable (TypeError),
other non-string components never equal the stored string keys. -/
def feedGet (cbs : List ((String × String) × Nat)) (c s : JVal) :
    Except PyErr (Option Nat) :=
  match c, s with
  | JVal.str c0, JVal.str s0 => Except.ok (lookupFeedCallback (c0, s0) cbs)
  | JVal.arr _, _ => Except.error PyErr.typeError
  | JVal.obj _, _ => Except.error PyErr.typeError
  | _, JVal.arr _ => Except.error PyErr.typeError
  | _, JVal.obj _ => Except.error PyErr.typeError
  | _, _ => Except.ok none

/-- Model of _on_all_trade. -/
def on_all_trade (st : ConnectorState) (msg : JVal) : Step :=
  match getItem msg "callback_name" with
  | Except.error e => stepErr st [] e
  | Except.ok cbn =>
      match cbn with
      | JVal.str name =>
          if name = "OnAllTrade" then
            match getItem msg "result" with
            | Except.error e => stepErr st [] e
            | Except.ok result =>
                match getItem result "class_code" with
                | Except.error e => stepErr st [] e
                | Except.ok class_code =>
                    match getItem result "sec_code" with
                    | Except.error e => stepErr st [] e
                    | Except.ok sec_name =>
                        match feedGet st.feed_callbacks class_code sec_name with
                        | Except.error e => stepErr st [] e
                        | Except.ok none => stepOk st []
                        | Except.ok (some cb) =>
                            match class_code, sec_name with
                            | JVal.str c0, JVal.str s0 =>
                                let dbg := Event.logged
                                  ("Feed callback found for class_code=" ++ c0 ++
                                    ", sec_code=" ++ s0)
                                match getItem result "price" with
                                | Except.error e => stepErr st [dbg] e
                                | Except.ok price =>
                                    match getItem result "qty" with
                                    | Except.error e => stepErr st [dbg] e
                                    | Except.ok qty =>
                                        stepOk st
                                          [ dbg,
                                            Event.invokedFeed st.status cb c0 s0 price qty ]
                            | _, _ => stepOk st []
          else stepOk st []
      | _ => stepOk st []

/-- Push-event handlers reachable from the switcher table in _callback. -/
inductive PushHandler : Type where
  | onAllTrade : PushHandler
  | onTransReply : PushHandler
deriving DecidableEq

/-- Python dict .get on the switcher of _callback: unhashable keys raise
TypeError, unknown hashable keys return None. -/
def switcherGet (name : JVal) : Except PyErr (Option PushHandler) :=
  match name with
  | JVal.str s =>
      if s = "OnAllTrade" then Except.ok (some PushHandler.onAllTrade)
      else if s = "OnTransReply" then Except.ok (some PushHandler.onTransReply)
      else Except.ok none
  | JVal.arr _ => Except.error PyErr.typeError
  | JVal.obj _ => Except.error PyErr.typeError
  | _ => Except.ok none

/-- Model of _callback: route by callback_name to the specific push
handler, dropping unknown names silently. -/
def callback_method (st : ConnectorState) (msg : JVal) : Step :=
  match getItem msg "callback_name" with
  | Except.error e => stepErr st [] e
  | Except.ok name =>
      match switcherGet name with
      | Except.error e => stepErr st [] e
      | Except.ok none => stepOk st []
      | Except.ok (some PushHandler.onAllTrade) => on_all_trade st msg
      | Except.ok (some PushHandler.onTransReply) => on_trans_reply st msg

/-- Handlers stored in the static self.callbacks table. -/
inductive Handler : Type where
  | on_auth : Handler
  | on_create_datasource : Handler
  | callback_method : Handler
deriving DecidableEq

/-- Python dict .get on self.callbacks keyed by the decoded message id. -/
def callbacksGet (idv : JVal) : Except PyErr (Option Handler) :=
  match idv with
  | JVal.str s =>
      if s = MSG_ID_AUTH then Except.ok (some Handler.on_auth)
      else if s = MSG_ID_CREATE_DATASOURCE then Except.ok (some Handler.on_create_datasource)
      else if s = "callback" then Except.ok (some Handler.callback_method)
      else Except.ok none
  | JVal.arr _ => Except.error PyErr.typeError
  | JVal.obj _ => Except.error PyErr.typeError
  | _ => Except.ok none

/-- Dispatch one handler on one message. -/
def runHandler (h : Handler) (st : ConnectorState) (msg : JVal) : Step :=
  match h with
  | Handler.on_auth => on_auth st msg
  | Handler.on_create_datasource => on_create_datasource st msg
  | Handler.callback_method => callback_method st msg

/-- Model of one iteration of the inner fragment loop of run: skip empty
fragments, decode (JSONDecodeError is caught and logged), look up the
handler by message id (a missing id key or unhashable id raises out of
the loop) and call it, recording the call as an event. -/
def process_data_item (decode : String → Option JVal) (data : String)
    (st : ConnectorState) (data_item : String) : Step :=
  if data_item = "" then stepOk st []
  else
    match decode data_item with
    | none =>
        stepOk st
          [ Event.logged ("Bad message packet " ++ data ++ ", message " ++ data_item) ]
    | some msg =>
        match getItem msg "id" with
        | Except.error e => stepErr st [] e
        | Except.ok idv =>
            match callbacksGet idv with
            | Except.error e => stepErr st [] e
            | Except.ok none => stepOk st []
            | Except.ok (some h) =>
                let r := runHandler h st msg
                ⟨r.st, Event.handlerCall msg :: r.evs, r.err⟩

/-- Fragment loop of run over the split chunk. -/
def process_items (decode : String → Option JVal) (data : String)
    (st : ConnectorState) : List String → Step
  | [] => stepOk st []
  | item :: rest =>
      (process_data_item decode data st item).andThen fun st2 =>
        process_items decode data st2 rest

/-- Split one decoded chunk on the delimiter and run the fragment loop. -/
def dispatch_chunk (decode : String → Option JVal) (st : ConnectorState)
    (data : String) : Step :=
  process_items decode data st (pySplit MSG_DELIMITER data)

/-- Model of one iteration of the outer receive loop of run: decode the
received bytes with msg_encoding (UnicodeDecodeError is caught and
logged), print the text and dispatch the fragments. -/
def process_recv (byteDecode : String → List Nat → Option String)
    (decode : String → Option JVal) (st : ConnectorState) (raw : List Nat) : Step :=
  match byteDecode msg_encoding raw with
  | none => stepOk st [ Event.loggedRaw "Bad message packet %s" raw ]
  | some data =>
      let r := dispatch_chunk decode st data
      ⟨r.st, Event.printed data :: r.evs, r.err⟩

/-- Receive loop of run over the finite list of chunks delivered before
the interrupting KeyboardInterrupt. -/
def run_loop (byteDecode : String → List Nat → Option String)
    (decode : String → Option JVal) (st : ConnectorState) : List (List Nat) → Step
  | [] => stepOk st []
  | raw :: rest =>
      (process_recv byteDecode decode st raw).andThen fun st2 =>
        run_loop byteDecode decode st2 rest

/-- Model of run: connect, send the auth request, replay the registered
subscriptions, loop over the received chunks, and on KeyboardInterrupt
set status to DISCONNECTED and close the socket (the handle field keeps
the closed socket, the source never assigns None to it).  An exception
escaping a handler skips this shutdown sequence, as in the source. -/
def run (byteDecode : String → List Nat → Option String)
    (decode : String → Option JVal) (st : ConnectorState)
    (chunks : List (List Nat)) : Step :=
  (connect_sock st).andThen fun st1 =>
    (auth st1).andThen fun st2 =>
      (create_subscribers_datasources st2).andThen fun st3 =>
        (run_loop byteDecode decode st3 chunks).andThen fun st4 =>
          stepOk
            { st4 with
                status := Status.disconnected,
                sock := st4.sock.map (fun _ => false) }
            [ Event.logged "Interrupted by user", Event.logged "Disconnected" ]

/-- Text of the transaction string built in _send_order.  The Python
literal uses doubled backslashes, so the separators are the two
characters backslash and n. -/
def transOf (account class_code sec_code : String) (trans_id qty : Nat) : String :=
  "ACCOUNT=" ++ account ++ "\\nCLIENT_CODE=" ++ account ++ "\\nTYPE=L\\nTRANS_ID=" ++
    toString trans_id ++ "\\nCLASSCODE=" ++ class_code ++ "\\nSECCODE=" ++ sec_code ++
    "\\nACTION=NEW_ORDER\\nOPERATION=B\\nPRICE=0\\nQUANTITY=" ++ toString qty

/-- Text of the sendTransaction request of _send_order. -/
def order_msg_str (account class_code sec_code : String) (trans_id qty : Nat) : String :=
  MSG_DELIMITER ++ "\x7b\"id\": \"" ++ toString trans_id ++
    "\",\"method\": \"sendTransaction\",\"args\": [\"" ++
    transOf account class_code sec_code trans_id qty ++ "\"]\x7d"

/-- Text of the OnTransReply request of _send_order. -/
def trans_reply_msg_str (trans_id : Nat) : String :=
  MSG_DELIMITER ++ "\x7b\"id\": \"" ++ toString trans_id ++
    "_reply\",\"method\": \"OnTransReply\",\"args\": [\"" ++ toString trans_id ++ "\"]\x7d"

/-- Model of _send_order: increment the transaction counter, send the
order request and the reply request, both UTF-8 encoded. -/
def send_order (st : ConnectorState) (class_code sec_code : String)
    (quantity : Nat) : Step :=
  let st2 := { st with last_trans_id := st.last_trans_id + 1 }
  let om := order_msg_str st2.account class_code sec_code st2.last_trans_id quantity
  let rm := trans_reply_msg_str st2.last_trans_id
  stepOk st2
    [ Event.logged ("Sending order " ++ om),
      Event.sent "UTF-8" om,
      Event.sent "UTF-8" rm ]

/-- Repeated _send_order calls on one instance. -/
def send_orders (st : ConnectorState) : List (String × String × Nat) → Step
  | [] => stepOk st []
  | (c, s, q) :: rest =>
      (send_order st c s q).andThen fun st2 => send_orders st2 rest

/-- Model of the constructor: fields as set by the source, empty registry,
counter zero, status DISCONNECTED, no socket. -/
def initConnector (host : String) (port : Nat) (passwd account : String) :
    ConnectorState :=
  { host := host, port := port, passwd := passwd, account := account,
    sock := none, last_trans_id := 0, status := Status.disconnected,
    feed_callbacks := [] }

/-- Sequence of subscribe calls before run starts. -/
def subscribeAll (st : ConnectorState) : List (String × String × Nat) → Step
  | [] => stepOk st []
  | (n, c, cb) :: rest =>
      (subscribe st n c cb).andThen fun st2 => subscribeAll st2 rest

/-- One whole session: construct, subscribe, then run over the given
chunks. -/
def sessionRun (byteDecode : String → List Nat → Option String)
    (decode : String → Option JVal) (host : String) (port : Nat)
    (passwd account : String) (subs : List (String × String × Nat))
    (chunks : List (List Nat)) : Step :=
  (subscribeAll (initConnector host port passwd account) subs).andThen fun st =>
    run byteDecode decode st chunks

/-- Concrete auth-failure response fragment, as json.loads would see it. -/
def fragAuthFalse : String := "\x7b\"id\": \"msg_auth\", \"result\": [false]\x7d"

/-- Concrete auth-success response fragment. -/
def fragAuthTrue : String := "\x7b\"id\": \"msg_auth\", \"result\": [true]\x7d"

/-- Concrete OnAllTrade push fragment for (SPBFUT, RIU8). -/
def fragAllTrade : String :=
  "\x7b\"id\": \"callback\", \"callback_name\": \"OnAllTrade\", \"result\": \x7b\"class_code\": \"SPBFUT\", \"sec_code\": \"RIU8\", \"price\": 100, \"qty\": 2\x7d\x7d"

/-- Decoded form of fragAuthFalse. -/
def msgAuthFalse : JVal :=
  JVal.obj [("id", JVal.str "msg_auth"), ("result", JVal.arr [JVal.bool false])]

/-- Decoded form of fragAuthTrue. -/
def msgAuthTrue : JVal :=
  JVal.obj [("id", JVal.str "msg_auth"), ("result", JVal.arr [JVal.bool true])]

/-- Decoded form of fragAllTrade. -/
def msgAllTrade : JVal :=
  JVal.obj
    [("id", JVal.str "callback"), ("callback_name", JVal.str "OnAllTrade"),
     ("result", JVal.obj
        [("class_code", JVal.str "SPBFUT"), ("sec_code", JVal.str "RIU8"),
         ("price", JVal.num 100), ("qty", JVal.num 2)])]

/-- Concrete JSON decoder agreeing with json.loads on the three fixture
fragments and failing elsewhere. -/
def decodeFix : String → Option JVal := fun s =>
  if s = fragAuthFalse then some msgAuthFalse
  else if s = fragAuthTrue then some msgAuthTrue
  else if s = fragAllTrade then some msgAllTrade
  else none

/-- Chunk carrying two well-formed auth responses. -/
def chunkAuthFalsePair : String :=
  MSG_DELIMITER ++ fragAuthFalse ++ MSG_DELIMITER ++ fragAuthTrue

/-- Chunk carrying one auth-failure response. -/
def chunkAuthFalse : String := MSG_DELIMITER ++ fragAuthFalse

/-- Chunk carrying one auth-success response. -/
def chunkAuthTrue : String := MSG_DELIMITER ++ fragAuthTrue

/-- Chunk carrying one OnAllTrade push event. -/
def chunkAllTrade : String := MSG_DELIMITER ++ fragAllTrade

/-- Byte rendering of an ASCII string, on which codepage 1251 agrees with
the identity. -/
def asciiBytes (s : String) : List Nat := s.data.map Char.toNat

/-- Concrete byte decoder agreeing with codepage 1251 on the fixture
chunks (all ASCII) and failing elsewhere. -/
def byteDecodeFix : String → List Nat → Option String := fun enc raw =>
  if enc = "1251" then
    if raw = asciiBytes chunkAllTrade then some chunkAllTrade
    else if raw = asciiBytes chunkAuthTrue then some chunkAuthTrue
    else if raw = asciiBytes chunkAuthFalsePair then some chunkAuthFalsePair
    else if raw = asciiBytes chunkAuthFalse then some chunkAuthFalse
    else none
  else none

/-- Connector state as found inside run right after the socket connected:
the state the fragment dispatch actually runs in before authentication. -/
def stConnecting : ConnectorState :=
  { initConnector "h" 1 "pw" "acc" with status := Status.connecting, sock := some true }

/-- stConnecting with one registered subscription. -/
def stSubscribed : ConnectorState :=
  { stConnecting with feed_callbacks := [(("SPBFUT", "RIU8"), 7)] }

/-- Payloads of send events, with the encoding used for each. -/
def sentPayloads (evs : List Event) : List (String × String) :=
  evs.filterMap fun e =>
    match e with
    | Event.sent enc p => some (enc, p)
    | _ => none

/-- Encodings of send events. -/
def sentEncodings (evs : List Event) : List String :=
  evs.filterMap fun e =>
    match e with
    | Event.sent enc _ => some enc
    | _ => none

/-- Messages on which a handler was called, in call order. -/
def handlerCalls (evs : List Event) : List JVal :=
  evs.filterMap fun e =>
    match e with
    | Event.handlerCall m => some m
    | _ => none

/-- Connection statuses at the feed-callback invocations, in order. -/
def invokedStatuses (evs : List Event) : List Status :=
  evs.filterMap fun e =>
    match e with
    | Event.invokedFeed s _ _ _ _ _ => some s
    | _ => none

/-- Events emitted by _create_subscribers_datasources for a given registry
content: one log line and one UTF-8 send per stored key, in registry
order. -/
def createDSEvents : List ((String × String) × Nat) → List Event
  | [] => []
  | ((a, b), _) :: rest =>
      Event.logged ("Sending msg: " ++ create_datasource_msg a b) ::
      Event.sent "UTF-8" (create_datasource_msg a b) :: createDSEvents rest

/-- Connector state right after _connect_sock inside run: status
CONNECTING and an open socket, everything else untouched. -/
def startupState (st : ConnectorState) : ConnectorState :=
  { st with status := Status.connecting, sock := some true }

/-- Events of the run startup phase (connect, auth request, subscription
replay), before the first chunk is received. -/
def startupEvents (st : ConnectorState) : List Event :=
  [ Event.logged ("Connecting to " ++ st.host ++ ":" ++ toString st.port),
    Event.logged ("Connected to " ++ st.host ++ ":" ++ toString st.port),
    Event.logged ("Sending message: " ++ authMsg st.passwd),
    Event.sent "UTF-8" (authMsg st.passwd) ] ++ createDSEvents st.feed_callbacks

/-- Expected wire traffic of repeated _send_order calls starting at a
given next transaction id: for each order one sendTransaction request and
one OnTransReply request, both UTF-8 encoded, ids counting up by one. -/
def orderSendsFrom (account : String) (tid : Nat) :
    List (String × String × Nat) → List (String × String)
  | [] => []
  | (c, s, q) :: rest =>
      ("UTF-8", order_msg_str account c s tid q) ::
      ("UTF-8", trans_reply_msg_str tid) :: orderSendsFrom account (tid + 1) rest

/-! Helper lemmas on sequencing and on the event projections. -/

theorem andThen_eq_of_err_none (r : Step) (f : ConnectorState → Step) (h : r.err = none) :
    r.andThen f = ⟨(f r.st).st, r.evs ++ (f r.st).evs, (f r.st).err⟩ := by
  unfold Step.andThen
  rw [h]

theorem andThen_eq_of_err_some (r : Step) (f : ConnectorState → Step) (e : PyErr)
    (h : r.err = some e) : r.andThen f = r := by
  unfold Step.andThen
  rw [h]

theorem stepOk_andThen (st : ConnectorState) (evs : List Event)
    (f : ConnectorState → Step) :
    (stepOk st evs).andThen f = ⟨(f st).st, evs ++ (f st).evs, (f st).err⟩ := rfl

theorem mk_none_andThen (st : ConnectorState) (evs : List Event)
    (f : ConnectorState → Step) :
    (Step.mk st evs none).andThen f = ⟨(f st).st, evs ++ (f st).evs, (f st).err⟩ := rfl

theorem handlerCalls_append (a b : List Event) :
    handlerCalls (a ++ b) = handlerCalls a ++ handlerCalls b := by
  simp [handlerCalls, List.filterMap_append]

theorem invokedStatuses_append (a b : List Event) :
    invokedStatuses (a ++ b) = invokedStatuses a ++ invokedStatuses b := by
  simp [invokedStatuses, List.filterMap_append]

theorem sentPayloads_append (a b : List Event) :
    sentPayloads (a ++ b) = sentPayloads a ++ sentPayloads b := by
  simp [sentPayloads, List.filterMap_append]

theorem sentEncodings_append (a b : List Event) :
    sentEncodings (a ++ b) = sentEncodings a ++ sentEncodings b := by
  simp [sentEncodings, List.filterMap_append]

theorem sentEncodings_eq_map_fst (evs : List Event) :
    sentEncodings evs = (sentPayloads evs).map Prod.fst := by
  induction evs with
  | nil => rfl
  | cons e rest ih =>
      cases e with
      | sent enc p =>
          show enc :: sentEncodings rest = ((enc, p) :: sentPayloads rest).map Prod.fst
          rw [List.map_cons, ih]
      | handlerCall m => exact ih
      | invokedFeed s cb c sc p q => exact ih
      | logged t => exact ih
      | loggedVal f v => exact ih
      | loggedRaw f r => exact ih
      | printed t => exact ih

/-! Facts about the individual message handlers. -/

theorem on_auth_sock (st : ConnectorState) (m : JVal) :
    (on_auth st m).st.sock = st.sock := by
  unfold on_auth
  repeat' split
  all_goals rfl

theorem on_auth_status (st : ConnectorState) (m : JVal) :
    (on_auth st m).st.status = st.status ∨ (on_auth st m).st.status = Status.connected := by
  unfold on_auth
  repeat' split
  all_goals first | exact Or.inl rfl | exact Or.inr rfl

theorem on_auth_handlerCalls (st : ConnectorState) (m : JVal) :
    handlerCalls (on_auth st m).evs = [] := by
  unfold on_auth
  repeat' split
  all_goals rfl

theorem on_auth_invokedStatuses (st : ConnectorState) (m : JVal) :
    invokedStatuses (on_auth st m).evs = [] := by
  unfold on_auth
  repeat' split
  all_goals rfl

theorem on_auth_sentPayloads (st : ConnectorState) (m : JVal) :
    sentPayloads (on_auth st m).evs = [] := by
  unfold on_auth
  repeat' split
  all_goals rfl

theorem on_create_datasource_st (st : ConnectorState) (m : JVal) :
    (on_create_datasource st m).st = st := by
  unfold on_create_datasource
  repeat' split
  all_goals rfl

theorem on_create_datasource_events (st : ConnectorState) (m : JVal) :
    handlerCalls (on_create_datasource st m).evs = [] ∧
    invokedStatuses (on_create_datasource st m).evs = [] ∧
    sentPayloads (on_create_datasource st m).evs = [] := by
  unfold on_create_datasource
  repeat' split
  all_goals exact ⟨rfl, rfl, rfl⟩

theorem on_trans_reply_st (st : ConnectorState) (m : JVal) :
    (on_trans_reply st m).st = st := by
  unfold on_trans_reply
  repeat' split
  all_goals rfl

theorem on_trans_reply_events (st : ConnectorState) (m : JVal) :
    handlerCalls (on_trans_reply st m).evs = [] ∧
    invokedStatuses (on_trans_reply st m).evs = [] ∧
    sentPayloads (on_trans_reply st m).evs = [] := by
  unfold on_trans_reply
  repeat' split
  all_goals exact ⟨rfl, rfl, rfl⟩

theorem on_all_trade_st (st : ConnectorState) (m : JVal) :
    (on_all_trade st m).st = st := by
  unfold on_all_trade
  repeat' split
  all_goals rfl

theorem on_all_trade_handlerCalls (st : ConnectorState) (m : JVal) :
    handlerCalls (on_all_trade st m).evs = [] := by
  unfold on_all_trade
  repeat' split
  all_goals rfl

theorem on_all_trade_sentPayloads (st : ConnectorState) (m : JVal) :
    sentPayloads (on_all_trade st m).evs = [] := by
  unfold on_all_trade
  repeat' split
  all_goals rfl

theorem on_all_trade_invokedStatuses (st : ConnectorState) (m : JVal) :
    invokedStatuses (on_all_trade st m).evs = [] ∨
    invokedStatuses (on_all_trade st m).evs = [st.status] := by
  unfold on_all_trade
  repeat' split
  all_goals first | exact Or.inl rfl | exact Or.inr rfl

theorem callback_method_st (st : ConnectorState) (m : JVal) :
    (callback_method st m).st = st := by
  unfold callback_method
  repeat' split
  all_goals first
    | rfl
    | exact on_all_trade_st st m
    | exact on_trans_reply_st st m

theorem runHandler_sock (h : Handler) (st : ConnectorState) (m : JVal) :
    (runHandler h st m).st.sock = st.sock := by
  cases h with
  | on_auth => exact on_auth_sock st m
  | on_create_datasource => rw [runHandler, on_create_datasource_st]
  | callback_method => rw [runHandler, callback_method_st]

theorem runHandler_status (h : Handler) (st : ConnectorState) (m : JVal) :
    (runHandler h st m).st.status = st.status ∨
    (runHandler h st m).st.status = Status.connected := by
  cases h with
  | on_auth => exact on_auth_status st m
  | on_create_datasource => rw [runHandler, on_create_datasource_st]; exact Or.inl rfl
  | callback_method => rw [runHandler, callback_method_st]; exact Or.inl rfl

theorem runHandler_handlerCalls (h : Handler) (st : ConnectorState) (m : JVal) :
    handlerCalls (runHandler h st m).evs = [] := by
  cases h with
  | on_auth => exact on_auth_handlerCalls st m
  | on_create_datasource => exact (on_create_datasource_events st m).1
  | callback_method =>
      show handlerCalls (callback_method st m).evs = []
      unfold callback_method
      repeat' split
      all_goals first
        | rfl
        | exact on_all_trade_handlerCalls st m
        | exact (on_trans_reply_events st m).1

theorem runHandler_invokedStatuses (h : Handler) (st : ConnectorState) (m : JVal) :
    invokedStatuses (runHandler h st m).evs = [] ∨
    invokedStatuses (runHandler h st m).evs = [st.status] := by
  cases h with
  | on_auth => exact Or.inl (on_auth_invokedStatuses st m)
  | on_create_datasource => exact Or.inl (on_create_datasource_events st m).2.1
  | callback_method =>
      show invokedStatuses (callback_method st m).evs = [] ∨
        invokedStatuses (callback_method st m).evs = [st.status]
      unfold callback_method
      repeat' split
      all_goals first
        | exact Or.inl rfl
        | exact on_all_trade_invokedStatuses st m
        | exact Or.inl (on_trans_reply_events st m).2.1

theorem runHandler_sentPayloads (h : Handler) (st : ConnectorState) (m : JVal) :
    sentPayloads (runHandler h st m).evs = [] := by
  cases h with
  | on_auth => exact on_auth_sentPayloads st m
  | on_create_datasource => exact (on_create_datasource_events st m).2.2
  | callback_method =>
      show sentPayloads (callback_method st m).evs = []
      unfold callback_method
      repeat' split
      all_goals first
        | rfl
        | exact on_all_trade_sentPayloads st m
        | exact (on_trans_reply_events st m).2.2

/-! Facts about the fragment loop and the receive loop. -/

theorem process_data_item_sock (d : String → Option JVal) (data : String)
    (st : ConnectorState) (i : String) :
    (process_data_item d data st i).st.sock = st.sock := by
  unfold process_data_item
  repeat' split
  all_goals first | rfl | exact runHandler_sock _ st _

theorem process_data_item_status (d : String → Option JVal) (data : String)
    (st : ConnectorState) (i : String) :
    (process_data_item d data st i).st.status = st.status ∨
    (process_data_item d data st i).st.status = Status.connected := by
  unfold process_data_item
  repeat' split
  all_goals first | exact Or.inl rfl | exact runHandler_status _ st _

theorem process_data_item_invoked (d : String → Option JVal) (data : String)
    (st : ConnectorState) (i : String) :
    invokedStatuses (process_data_item d data st i).evs = [] ∨
    invokedStatuses (process_data_item d data st i).evs = [st.status] := by
  unfold process_data_item
  repeat' split
  all_goals first | exact Or.inl rfl | exact runHandler_invokedStatuses _ st _

theorem process_data_item_sent (d : String → Option JVal) (data : String)
    (st : ConnectorState) (i : String) :
    sentPayloads (process_data_item d data st i).evs = [] := by
  unfold process_data_item
  repeat' split
  all_goals first | rfl | exact runHandler_sentPayloads _ st _

theorem process_items_sock (d : String → Option JVal) (data : String) :
    ∀ (items : List String) (st : ConnectorState),
      (process_items d data st items).st.sock = st.sock := by
  intro items
  induction items with
  | nil => intro st; rfl
  | cons i rest ih =>
      intro st
      show ((process_data_item d data st i).andThen fun st2 =>
        process_items d data st2 rest).st.sock = st.sock
      cases herr : (process_data_item d data st i).err with
      | none =>
          rw [andThen_eq_of_err_none _ _ herr]
          show (process_items d data (process_data_item d data st i).st rest).st.sock = st.sock
          rw [ih, process_data_item_sock]
      | some e =>
          rw [andThen_eq_of_err_some _ _ e herr]
          exact process_data_item_sock d data st i

theorem process_items_status (d : String → Option JVal) (data : String) :
    ∀ (items : List String) (st : ConnectorState),
      (process_items d data st items).st.status = st.status ∨
      (process_items d data st items).st.status = Status.connected := by
  intro items
  induction items with
  | nil => intro st; exact Or.inl rfl
  | cons i rest ih =>
      intro st
      rw [show process_items d data st (i :: rest) =
        ((process_data_item d data st i).andThen fun st2 =>
          process_items d data st2 rest) from rfl]
      cases herr : (process_data_item d data st i).err with
      | none =>
          rw [andThen_eq_of_err_none _ _ herr]
          show ((process_items d data (process_data_item d data st i).st rest).st.status =
            st.status ∨
            (process_items d data (process_data_item d data st i).st rest).st.status =
            Status.connected)
          rcases ih (process_data_item d data st i).st with h2 | h2
          · rw [h2]
            exact process_data_item_status d data st i
          · exact Or.inr h2
      | some e =>
          rw [andThen_eq_of_err_some _ _ e herr]
          exact process_data_item_status d data st i

theorem process_items_invoked (d : String → Option JVal) (data : String) :
    ∀ (items : List String) (st : ConnectorState), st.status ≠ Status.disconnected →
      ∀ s ∈ invokedStatuses (process_items d data st items).evs, s ≠ Status.disconnected := by
  intro items
  induction items with
  | nil =>
      intro st _ s hs
      exact absurd hs (List.not_mem_nil s)
  | cons i rest ih =>
      intro st hst s hs
      rw [show process_items d data st (i :: rest) =
        ((process_data_item d data st i).andThen fun st2 =>
          process_items d data st2 rest) from rfl] at hs
      cases herr : (process_data_item d data st i).err with
      | none =>
          rw [andThen_eq_of_err_none _ _ herr] at hs
          have hs2 : s ∈ invokedStatuses ((process_data_item d data st i).evs ++
              (process_items d data (process_data_item d data st i).st rest).evs) := hs
          rw [invokedStatuses_append] at hs2
          rcases List.mem_append.mp hs2 with hmem | hmem
          · rcases process_data_item_invoked d data st i with hinv | hinv
            · rw [hinv] at hmem
              exact absurd hmem (List.not_mem_nil s)
            · rw [hinv] at hmem
              rw [List.mem_singleton.mp hmem]
              exact hst
          · have hst2 : (process_data_item d data st i).st.status ≠ Status.disconnected := by
              rcases process_data_item_status d data st i with h2 | h2
              · rw [h2]; exact hst
              · rw [h2]; exact fun hc => Status.noConfusion hc
            exact ih (process_data_item d data st i).st hst2 s hmem
      | some e =>
          rw [andThen_eq_of_err_some _ _ e herr] at hs
          rcases process_data_item_invoked d data st i with hinv | hinv
          · rw [hinv] at hs
            exact absurd hs (List.not_mem_nil s)
          · rw [hinv] at hs
            rw [List.mem_singleton.mp hs]
            exact hst

theorem process_items_sent (d : String → Option JVal) (data : String) :
    ∀ (items : List String) (st : ConnectorState),
      sentPayloads (process_items d data st items).evs = [] := by
  intro items
  induction items with
  | nil => intro st; rfl
  | cons i rest ih =>
      intro st
      show sentPayloads ((process_data_item d data st i).andThen fun st2 =>
        process_items d data st2 rest).evs = []
      cases herr : (process_data_item d data st i).err with
      | none =>
          rw [andThen_eq_of_err_none _ _ herr]
          show sentPayloads ((process_data_item d data st i).evs ++
            (process_items d data (process_data_item d data st i).st rest).evs) = []
          rw [sentPayloads_append, process_data_item_sent, ih]
          rfl
      | some e =>
          rw [andThen_eq_of_err_some _ _ e herr]
          exact process_data_item_sent d data st i

theorem process_recv_sock (bd : String → List Nat → Option String)
    (d : String → Option JVal) (st : ConnectorState) (raw : List Nat) :
    (process_recv bd d st raw).st.sock = st.sock := by
  unfold process_recv
  split
  · rfl
  · exact process_items_sock d _ _ st

theorem process_recv_status (bd : String → List Nat → Option String)
    (d : String → Option JVal) (st : ConnectorState) (raw : List Nat) :
    (process_recv bd d st raw).st.status = st.status ∨
    (process_recv bd d st raw).st.status = Status.connected := by
  unfold process_recv
  split
  · exact Or.inl rfl
  · exact process_items_status d _ _ st

theorem process_recv_invoked (bd : String → List Nat → Option String)
    (d : String → Option JVal) (st : ConnectorState) (raw : List Nat)
    (hst : st.status ≠ Status.disconnected) :
    ∀ s ∈ invokedStatuses (process_recv bd d st raw).evs, s ≠ Status.disconnected := by
  unfold process_recv
  split
  · intro s hs
    exact absurd hs (List.not_mem_nil s)
  · exact process_items_invoked d _ _ st hst

theorem process_recv_sent (bd : String → List Nat → Option String)
    (d : String → Option JVal) (st : ConnectorState) (raw : List Nat) :
    sentPayloads (process_recv bd d st raw).evs = [] := by
  unfold process_recv
  split
  · rfl
  · exact process_items_sent d _ _ st

theorem run_loop_sock (bd : String → List Nat → Option String)
    (d : String → Option JVal) :
    ∀ (chunks : List (List Nat)) (st : ConnectorState),
      (run_loop bd d st chunks).st.sock = st.sock := by
  intro chunks
  induction chunks with
  | nil => intro st; rfl
  | cons raw rest ih =>
      intro st
      show ((process_recv bd d st raw).andThen fun st2 =>
        run_loop bd d st2 rest).st.sock = st.sock
      cases herr : (process_recv bd d st raw).err with
      | none =>
          rw [andThen_eq_of_err_none _ _ herr]
          show (run_loop bd d (process_recv bd d st raw).st rest).st.sock = st.sock
          rw [ih, process_recv_sock]
      | some e =>
          rw [andThen_eq_of_err_some _ _ e herr]
          exact process_recv_sock bd d st raw

theorem run_loop_status (bd : String → List Nat → Option String)
    (d : String → Option JVal) :
    ∀ (chunks : List (List Nat)) (st : ConnectorState),
      (run_loop bd d st chunks).st.status = st.status ∨
      (run_loop bd d st chunks).st.status = Status.connected := by
  intro chunks
  induction chunks with
  | nil => intro st; exact Or.inl rfl
  | cons raw rest ih =>
      intro st
      rw [show run_loop bd d st (raw :: rest) =
        ((process_recv bd d st raw).andThen fun st2 =>
          run_loop bd d st2 rest) from rfl]
      cases herr : (process_recv bd d st raw).err with
      | none =>
          rw [andThen_eq_of_err_none _ _ herr]
          show ((run_loop bd d (process_recv bd d st raw).st rest).st.status = st.status ∨
            (run_loop bd d (process_recv bd d st raw).st rest).st.status = Status.connected)
          rcases ih (process_recv bd d st raw).st with h2 | h2
          · rw [h2]
            exact process_recv_status bd d st raw
          · exact Or.inr h2
      | some e =>
          rw [andThen_eq_of_err_some _ _ e herr]
          exact process_recv_status bd d st raw

theorem run_loop_invoked (bd : String → List Nat → Option String)
    (d : String → Option JVal) :
    ∀ (chunks : List (List Nat)) (st : ConnectorState), st.status ≠ Status.disconnected →
      ∀ s ∈ invokedStatuses (run_loop bd d st chunks).evs, s ≠ Status.disconnected := by
  intro chunks
  induction chunks with
  | nil =>
      intro st _ s hs
      exact absurd hs (List.not_mem_nil s)
  | cons raw rest ih =>
      intro st hst s hs
      rw [show run_loop bd d st (raw :: rest) =
        ((process_recv bd d st raw).andThen fun st2 =>
          run_loop bd d st2 rest) from rfl] at hs
      cases herr : (process_recv bd d st raw).err with
      | none =>
          rw [andThen_eq_of_err_none _ _ herr] at hs
          have hs2 : s ∈ invokedStatuses ((process_recv bd d st raw).evs ++
              (run_loop bd d (process_recv bd d st raw).st rest).evs) := hs
          rw [invokedStatuses_append] at hs2
          rcases List.mem_append.mp hs2 with hmem | hmem
          · exact process_recv_invoked bd d st raw hst s hmem
          · have hst2 : (process_recv bd d st raw).st.status ≠ Status.disconnected := by
              rcases process_recv_status bd d st raw with h2 | h2
              · rw [h2]; exact hst
              · rw [h2]; exact fun hc => Status.noConfusion hc
            exact ih (process_recv bd d st raw).st hst2 s hmem
      | some e =>
          rw [andThen_eq_of_err_some _ _ e herr] at hs
          exact process_recv_invoked bd d st raw hst s hs

theorem run_loop_sent (bd : String → List Nat → Option String)
    (d : String → Option JVal) :
    ∀ (chunks : List (List Nat)) (st : ConnectorState),
      sentPayloads (run_loop bd d st chunks).evs = [] := by
  intro chunks
  induction chunks with
  | nil => intro st; rfl
  | cons raw rest ih =>
      intro st
      show sentPayloads ((process_recv bd d st raw).andThen fun st2 =>
        run_loop bd d st2 rest).evs = []
      cases herr : (process_recv bd d st raw).err with
      | none =>
          rw [andThen_eq_of_err_none _ _ herr]
          show sentPayloads ((process_recv bd d st raw).evs ++
            (run_loop bd d (process_recv bd d st raw).st rest).evs) = []
          rw [sentPayloads_append, process_recv_sent, ih]
          rfl
      | some e =>
          rw [andThen_eq_of_err_some _ _ e herr]
          exact process_recv_sent bd d st raw

/-! Decomposition of the startup phase and of run. -/

theorem create_datasources_loop_eq :
    ∀ (l : List ((String × String) × Nat)) (st : ConnectorState),
      create_datasources_loop st l = stepOk st (createDSEvents l) := by
  intro l
  induction l with
  | nil => intro st; rfl
  | cons p rest ih =>
      rcases p with ⟨⟨a, b⟩, v⟩
      intro st
      calc create_datasources_loop st (((a, b), v) :: rest)
          = ⟨(create_datasources_loop st rest).st,
              [Event.logged ("Sending msg: " ++ create_datasource_msg a b),
               Event.sent "UTF-8" (create_datasource_msg a b)] ++
                (create_datasources_loop st rest).evs,
              (create_datasources_loop st rest).err⟩ := rfl
        _ = stepOk st (createDSEvents (((a, b), v) :: rest)) := by
              rw [ih st]
              rfl

theorem create_subscribers_datasources_eq (st : ConnectorState) :
    create_subscribers_datasources st = stepOk st (createDSEvents st.feed_callbacks) :=
  create_datasources_loop_eq st.feed_callbacks st

theorem createDSEvents_sent :
    ∀ (l : List ((String × String) × Nat)),
      sentPayloads (createDSEvents l) =
        l.map (fun p => ("UTF-8", create_datasource_msg p.1.1 p.1.2)) := by
  intro l
  induction l with
  | nil => rfl
  | cons p rest ih =>
      rcases p with ⟨⟨a, b⟩, v⟩
      show ("UTF-8", create_datasource_msg a b) :: sentPayloads (createDSEvents rest) = _
      rw [ih]
      rfl

theorem createDSEvents_invoked :
    ∀ (l : List ((String × String) × Nat)), invokedStatuses (createDSEvents l) = [] := by
  intro l
  induction l with
  | nil => rfl
  | cons p rest ih =>
      rcases p with ⟨⟨a, b⟩, v⟩
      show invokedStatuses (createDSEvents rest) = []
      exact ih

theorem run_eq_none (bd : String → List Nat → Option String)
    (d : String → Option JVal) (st : ConnectorState) (chunks : List (List Nat))
    (h : (run_loop bd d (startupState st) chunks).err = none) :
    run bd d st chunks =
      ⟨{ (run_loop bd d (startupState st) chunks).st with
           status := Status.disconnected,
           sock := ((run_loop bd d (startupState st) chunks).st.sock).map (fun _ => false) },
        startupEvents st ++ (run_loop bd d (startupState st) chunks).evs ++
          [Event.logged "Interrupted by user", Event.logged "Disconnected"],
        none⟩ := by
  unfold run
  have e1 : connect_sock st = stepOk (startupState st)
      [ Event.logged ("Connecting to " ++ st.host ++ ":" ++ toString st.port),
        Event.logged ("Connected to " ++ st.host ++ ":" ++ toString st.port) ] := rfl
  have e2 : auth (startupState st) = stepOk (startupState st)
      [ Event.logged ("Sending message: " ++ authMsg st.passwd),
        Event.sent "UTF-8" (authMsg st.passwd) ] := rfl
  have e3 : create_subscribers_datasources (startupState st) =
      stepOk (startupState st) (createDSEvents st.feed_callbacks) :=
    create_subscribers_datasources_eq (startupState st)
  simp only [e1, e2, e3, stepOk, mk_none_andThen, andThen_eq_of_err_none _ _ h,
    startupEvents, List.append_assoc, List.cons_append, List.nil_append]

theorem on_auth_false_eq (st : ConnectorState) (msg r0 : JVal) (rest : List JVal)
    (hres : getItem msg "result" = Except.ok (JVal.arr (r0 :: rest)))
    (hf : r0.truthy = false) :
    on_auth st msg =
      stepErr st [] (PyErr.connectionError "Quik LUA authentication failed") := by
  unfold on_auth
  simp only [hres, index0, hf, Bool.false_eq_true, if_false]

theorem on_auth_true_eq (st : ConnectorState) (msg r0 : JVal) (rest : List JVal)
    (hres : getItem msg "result" = Except.ok (JVal.arr (r0 :: rest)))
    (ht : r0.truthy = true) :
    on_auth st msg =
      stepOk { st with status := Status.connected } [ Event.logged "Connected" ] := by
  unfold on_auth
  simp only [hres, index0, ht, if_true]

/-! Facts about subscribe and the subscription registry. -/

theorem subscribe_not_connected (st : ConnectorState) (n c : String) (cb : Nat)
    (h : st.status ≠ Status.connected) :
    subscribe st n c cb =
      stepOk { st with feed_callbacks := insertFeedCallback (n, c) cb st.feed_callbacks } [] := by
  simp only [subscribe]
  rw [if_neg h]

theorem subscribe_err (st : ConnectorState) (n c : String) (cb : Nat) :
    (subscribe st n c cb).err = none := by
  simp only [subscribe]
  split
  all_goals rfl

theorem subscribe_sock (st : ConnectorState) (n c : String) (cb : Nat) :
    (subscribe st n c cb).st.sock = st.sock := by
  simp only [subscribe]
  split
  all_goals rfl

theorem subscribe_status (st : ConnectorState) (n c : String) (cb : Nat) :
    (subscribe st n c cb).st.status = st.status := by
  simp only [subscribe]
  split
  all_goals rfl

theorem subscribe_feed (st : ConnectorState) (n c : String) (cb : Nat) :
    (subscribe st n c cb).st.feed_callbacks =
      insertFeedCallback (n, c) cb st.feed_callbacks := by
  simp only [subscribe]
  split
  all_goals rfl

theorem subscribe_invoked (st : ConnectorState) (n c : String) (cb : Nat) :
    invokedStatuses (subscribe st n c cb).evs = [] := by
  simp only [subscribe]
  split
  all_goals rfl

theorem subscribe_sent_utf8 (st : ConnectorState) (n c : String) (cb : Nat) :
    ∀ p ∈ sentPayloads (subscribe st n c cb).evs, p.1 = "UTF-8" := by
  simp only [subscribe]
  split
  · intro p hp
    have hp2 : p ∈ [("UTF-8", create_datasource_msg n c)] := hp
    rw [List.mem_singleton.mp hp2]
  · intro p hp
    exact absurd hp (List.not_mem_nil p)

theorem subscribeAll_err (subs : List (String × String × Nat)) :
    ∀ st : ConnectorState, (subscribeAll st subs).err = none := by
  induction subs with
  | nil => intro st; rfl
  | cons o rest ih =>
      rcases o with ⟨n, c, cb⟩
      intro st
      show ((subscribe st n c cb).andThen fun st2 => subscribeAll st2 rest).err = none
      rw [andThen_eq_of_err_none _ _ (subscribe_err st n c cb)]
      exact ih _

theorem subscribeAll_sock (subs : List (String × String × Nat)) :
    ∀ st : ConnectorState, (subscribeAll st subs).st.sock = st.sock := by
  induction subs with
  | nil => intro st; rfl
  | cons o rest ih =>
      rcases o with ⟨n, c, cb⟩
      intro st
      show ((subscribe st n c cb).andThen fun st2 => subscribeAll st2 rest).st.sock = st.sock
      rw [andThen_eq_of_err_none _ _ (subscribe_err st n c cb)]
      show (subscribeAll (subscribe st n c cb).st rest).st.sock = st.sock
      rw [ih, subscribe_sock]

theorem subscribeAll_status (subs : List (String × String × Nat)) :
    ∀ st : ConnectorState, (subscribeAll st subs).st.status = st.status := by
  induction subs with
  | nil => intro st; rfl
  | cons o rest ih =>
      rcases o with ⟨n, c, cb⟩
      intro st
      show ((subscribe st n c cb).andThen fun st2 => subscribeAll st2 rest).st.status = st.status
      rw [andThen_eq_of_err_none _ _ (subscribe_err st n c cb)]
      show (subscribeAll (subscribe st n c cb).st rest).st.status = st.status
      rw [ih, subscribe_status]

theorem subscribeAll_invoked (subs : List (String × String × Nat)) :
    ∀ st : ConnectorState, invokedStatuses (subscribeAll st subs).evs = [] := by
  induction subs with
  | nil => intro st; rfl
  | cons o rest ih =>
      rcases o with ⟨n, c, cb⟩
      intro st
      show invokedStatuses ((subscribe st n c cb).andThen fun st2 =>
        subscribeAll st2 rest).evs = []
      rw [andThen_eq_of_err_none _ _ (subscribe_err st n c cb)]
      show invokedStatuses ((subscribe st n c cb).evs ++
        (subscribeAll (subscribe st n c cb).st rest).evs) = []
      rw [invokedStatuses_append, subscribe_invoked, ih]
      rfl

theorem subscribeAll_sent_utf8 (subs : List (String × String × Nat)) :
    ∀ st : ConnectorState, ∀ p ∈ sentPayloads (subscribeAll st subs).evs, p.1 = "UTF-8" := by
  induction subs with
  | nil =>
      intro st p hp
      exact absurd hp (List.not_mem_nil p)
  | cons o rest ih =>
      rcases o with ⟨n, c, cb⟩
      intro st p hp
      rw [show subscribeAll st ((n, c, cb) :: rest) =
        ((subscribe st n c cb).andThen fun st2 => subscribeAll st2 rest) from rfl,
        andThen_eq_of_err_none _ _ (subscribe_err st n c cb)] at hp
      have hp2 : p ∈ sentPayloads ((subscribe st n c cb).evs ++
          (subscribeAll (subscribe st n c cb).st rest).evs) := hp
      rw [sentPayloads_append] at hp2
      rcases List.mem_append.mp hp2 with hmem | hmem
      · exact subscribe_sent_utf8 st n c cb p hmem
      · exact ih _ p hmem

theorem lookup_insertFeedCallback_self (k : String × String) (v : Nat) :
    ∀ l, lookupFeedCallback k (insertFeedCallback k v l) = some v := by
  intro l
  induction l with
  | nil => simp [insertFeedCallback, lookupFeedCallback]
  | cons p rest ih =>
      rcases p with ⟨k2, v2⟩
      unfold insertFeedCallback
      split
      · next heq => simp [lookupFeedCallback, heq]
      · next hne => simp [lookupFeedCallback, hne, ih]

theorem countKey_insertFeedCallback (k : String × String) (v : Nat) :
    ∀ l, countKey k l ≤ 1 → countKey k (insertFeedCallback k v l) = 1 := by
  intro l
  induction l with
  | nil => intro _; simp [insertFeedCallback, countKey]
  | cons p rest ih =>
      rcases p with ⟨k2, v2⟩
      intro hle
      unfold insertFeedCallback
      split
      · next heq =>
          subst heq
          have h1 : countKey k2 ((k2, v) :: rest) = countKey k2 rest + 1 := by
            simp [countKey, List.filter_cons]
          have h2 : countKey k2 ((k2, v2) :: rest) = countKey k2 rest + 1 := by
            simp [countKey, List.filter_cons]
          rw [h2] at hle
          rw [h1]
          omega
      · next hne =>
          have h1 : countKey k ((k2, v2) :: rest) = countKey k rest := by
            simp [countKey, List.filter_cons, hne]
          have h2 : countKey k ((k2, v2) :: insertFeedCallback k v rest) =
              countKey k (insertFeedCallback k v rest) := by
            simp [countKey, List.filter_cons, hne]
          rw [h2]
          rw [h1] at hle
          exact ih hle

/-! Characterization of repeated _send_order calls. -/

theorem send_orders_spec (orders : List (String × String × Nat)) :
    ∀ st : ConnectorState,
      (send_orders st orders).err = none ∧
      (send_orders st orders).st.last_trans_id = st.last_trans_id + orders.length ∧
      sentPayloads (send_orders st orders).evs =
        orderSendsFrom st.account (st.last_trans_id + 1) orders := by
  induction orders with
  | nil => intro st; exact ⟨rfl, rfl, rfl⟩
  | cons o rest ih =>
      rcases o with ⟨c, s, q⟩
      intro st
      obtain ⟨ih1, ih2, ih3⟩ := ih { st with last_trans_id := st.last_trans_id + 1 }
      refine ⟨ih1, ?_, ?_⟩
      · show (send_orders { st with last_trans_id := st.last_trans_id + 1 } rest).st.last_trans_id
          = st.last_trans_id + (rest.length + 1)
        rw [ih2]
        show st.last_trans_id + 1 + rest.length = st.last_trans_id + (rest.length + 1)
        omega
      · show ("UTF-8", order_msg_str st.account c s (st.last_trans_id + 1) q) ::
          ("UTF-8", trans_reply_msg_str (st.last_trans_id + 1)) ::
          sentPayloads (send_orders { st with last_trans_id := st.last_trans_id + 1 } rest).evs
          = orderSendsFrom st.account (st.last_trans_id + 1) ((c, s, q) :: rest)
        rw [ih3]
        rfl

theorem run_eq_some (bd : String → List Nat → Option String)
    (d : String → Option JVal) (st : ConnectorState) (chunks : List (List Nat))
    (e : PyErr) (h : (run_loop bd d (startupState st) chunks).err = some e) :
    run bd d st chunks =
      ⟨(run_loop bd d (startupState st) chunks).st,
        startupEvents st ++ (run_loop bd d (startupState st) chunks).evs,
        some e⟩ := by
  unfold run
  have e1 : connect_sock st = stepOk (startupState st)
      [ Event.logged ("Connecting to " ++ st.host ++ ":" ++ toString st.port),
        Event.logged ("Connected to " ++ st.host ++ ":" ++ toString st.port) ] := rfl
  have e2 : auth (startupState st) = stepOk (startupState st)
      [ Event.logged ("Sending message: " ++ authMsg st.passwd),
        Event.sent "UTF-8" (authMsg st.passwd) ] := rfl
  have e3 : create_subscribers_datasources (startupState st) =
      stepOk (startupState st) (createDSEvents st.feed_callbacks) :=
    create_subscribers_datasources_eq (startupState st)
  simp only [e1, e2, e3, stepOk, mk_none_andThen, andThen_eq_of_err_some _ _ e h,
    startupEvents, List.append_assoc, List.cons_append, List.nil_append]
  rw [h]

theorem Step.andThen_assoc (r : Step) (f g : ConnectorState → Step) :
    (r.andThen f).andThen g = r.andThen fun s => (f s).andThen g := by
  cases hr : r.err with
  | some e =>
      rw [andThen_eq_of_err_some r f e hr, andThen_eq_of_err_some r g e hr,
        andThen_eq_of_err_some r _ e hr]
  | none =>
      rw [andThen_eq_of_err_none r f hr, andThen_eq_of_err_none r _ hr]
      cases hf : (f r.st).err with
      | some e2 =>
          rw [andThen_eq_of_err_some
            (Step.mk (f r.st).st (r.evs ++ (f r.st).evs) (some e2)) g e2 rfl]
          rw [andThen_eq_of_err_some _ g e2 hf]
          rw [hf]
      | none =>
          rw [andThen_eq_of_err_none
            (Step.mk (f r.st).st (r.evs ++ (f r.st).evs) none) g rfl]
          rw [andThen_eq_of_err_none _ g hf]
          simp [List.append_assoc]

theorem process_items_append (d : String → Option JVal) (data : String)
    (l2 : List String) :
    ∀ (l1 : List String) (st : ConnectorState),
      process_items d data st (l1 ++ l2) =
        (process_items d data st l1).andThen fun st2 => process_items d data st2 l2 := by
  intro l1
  induction l1 with
  | nil =>
      intro st
      rw [show process_items d data st ([] ++ l2) = process_items d data st l2 from rfl,
        show process_items d data st [] = stepOk st [] from rfl, stepOk_andThen]
      rfl
  | cons i l1x ih =>
      intro st
      rw [show process_items d data st ((i :: l1x) ++ l2) =
        (process_data_item d data st i).andThen
          (fun st2 => process_items d data st2 (l1x ++ l2)) from rfl]
      rw [show process_items d data st (i :: l1x) =
        (process_data_item d data st i).andThen
          (fun st2 => process_items d data st2 l1x) from rfl]
      rw [Step.andThen_assoc]
      congr 1
      funext st2
      exact ih st2

/-! Claim theorems. -/

/-- C10: when the auth response carries a falsy result[0], _on_auth raises
before any mutation: the state is returned exactly as it was, no events
are emitted, and the uncaught ConnectionError is reported. -/
theorem C10_auth_failure_no_mutation (st : ConnectorState) (msg r0 : JVal)
    (rest : List JVal)
    (hres : getItem msg "result" = Except.ok (JVal.arr (r0 :: rest)))
    (hf : r0.truthy = false) :
    (on_auth st msg).st = st ∧ (on_auth st msg).evs = [] ∧
    (on_auth st msg).err = some (PyErr.connectionError "Quik LUA authentication failed") := by
  rw [on_auth_false_eq st msg r0 rest hres hf]
  exact ⟨rfl, rfl, rfl⟩

/-- Witness for C10 at the concrete auth-failure message. -/
theorem C10_witness :
    (on_auth stSubscribed msgAuthFalse).st = stSubscribed ∧
    (on_auth stSubscribed msgAuthFalse).evs = [] ∧
    (on_auth stSubscribed msgAuthFalse).err =
      some (PyErr.connectionError "Quik LUA authentication failed") :=
  C10_auth_failure_no_mutation stSubscribed msgAuthFalse (JVal.bool false) [] rfl rfl

/-- C3: an auth response whose result[0] is falsy makes _on_auth raise
ConnectionError without ever setting the status to Connected, and the
error escapes run as a hard failure; a true result[0] transitions the
status to Connected. -/
theorem C3_auth_response (st : ConnectorState) (msg r0 : JVal) (rest : List JVal)
    (hid : getItem msg "id" = Except.ok (JVal.str MSG_ID_AUTH))
    (hres : getItem msg "result" = Except.ok (JVal.arr (r0 :: rest))) :
    (r0.truthy = false →
      on_auth st msg =
        stepErr st [] (PyErr.connectionError "Quik LUA authentication failed") ∧
      ∀ (bd : String → List Nat → Option String) (d : String → Option JVal)
        (st0 : ConnectorState) (frag : String) (more : List (List Nat)) (raw : List Nat),
        bd msg_encoding raw = some (MSG_DELIMITER ++ frag) →
        pySplit MSG_DELIMITER (MSG_DELIMITER ++ frag) = ["", frag] →
        frag ≠ "" →
        d frag = some msg →
        (run bd d st0 (raw :: more)).err =
          some (PyErr.connectionError "Quik LUA authentication failed")) ∧
    (r0.truthy = true →
      on_auth st msg =
        stepOk { st with status := Status.connected } [Event.logged "Connected"]) := by
  constructor
  · intro hf
    refine ⟨on_auth_false_eq st msg r0 rest hres hf, ?_⟩
    intro bd d st0 frag more raw hbd hsplit hfrag hdec
    have hpd : ∀ st1 : ConnectorState,
        process_data_item d (MSG_DELIMITER ++ frag) st1 frag =
          ⟨st1, [Event.handlerCall msg],
            some (PyErr.connectionError "Quik LUA authentication failed")⟩ := by
      intro st1
      simp only [process_data_item, if_neg hfrag, hdec, hid,
        show callbacksGet (JVal.str MSG_ID_AUTH) = Except.ok (some Handler.on_auth) from rfl,
        runHandler, on_auth_false_eq st1 msg r0 rest hres hf, stepErr]
    have hitems : ∀ st1 : ConnectorState,
        (process_items d (MSG_DELIMITER ++ frag) st1 ["", frag]).err =
          some (PyErr.connectionError "Quik LUA authentication failed") := by
      intro st1
      rw [show process_items d (MSG_DELIMITER ++ frag) st1 ["", frag] =
        (process_data_item d (MSG_DELIMITER ++ frag) st1 "").andThen
          (fun st2 => process_items d (MSG_DELIMITER ++ frag) st2 [frag]) from rfl]
      rw [show process_data_item d (MSG_DELIMITER ++ frag) st1 "" = stepOk st1 [] from rfl,
        stepOk_andThen]
      show (process_items d (MSG_DELIMITER ++ frag) st1 [frag]).err = _
      rw [show process_items d (MSG_DELIMITER ++ frag) st1 [frag] =
        (process_data_item d (MSG_DELIMITER ++ frag) st1 frag).andThen
          (fun st2 => process_items d (MSG_DELIMITER ++ frag) st2 []) from rfl]
      rw [andThen_eq_of_err_some _ _ _ (show (process_data_item d (MSG_DELIMITER ++ frag) st1
        frag).err = some (PyErr.connectionError "Quik LUA authentication failed") from
          by rw [hpd st1])]
      rw [hpd st1]
    have hrecv : (process_recv bd d (startupState st0) raw).err =
        some (PyErr.connectionError "Quik LUA authentication failed") := by
      simp only [process_recv, hbd]
      show (dispatch_chunk d (startupState st0) (MSG_DELIMITER ++ frag)).err = _
      unfold dispatch_chunk
      rw [hsplit]
      exact hitems (startupState st0)
    have hloop : (run_loop bd d (startupState st0) (raw :: more)).err =
        some (PyErr.connectionError "Quik LUA authentication failed") := by
      rw [show run_loop bd d (startupState st0) (raw :: more) =
        (process_recv bd d (startupState st0) raw).andThen
          (fun st2 => run_loop bd d st2 more) from rfl]
      rw [andThen_eq_of_err_some _ _ _ hrecv]
      exact hrecv
    rw [run_eq_some bd d st0 (raw :: more) _ hloop]
  · intro ht
    exact on_auth_true_eq st msg r0 rest hres ht

/-- Witness for C3 at the concrete auth responses: the failure branch, the
success branch, and the escape of the error out of a whole run. -/
theorem C3_witness :
    on_auth stConnecting msgAuthFalse =
      stepErr stConnecting [] (PyErr.connectionError "Quik LUA authentication failed") ∧
    on_auth stConnecting msgAuthTrue =
      stepOk { stConnecting with status := Status.connected } [Event.logged "Connected"] ∧
    (run byteDecodeFix decodeFix (initConnector "h" 1 "pw" "acc")
      [asciiBytes chunkAuthFalse]).err =
      some (PyErr.connectionError "Quik LUA authentication failed") := by
  refine ⟨((C3_auth_response stConnecting msgAuthFalse (JVal.bool false) [] rfl rfl).1 rfl).1,
    (C3_auth_response stConnecting msgAuthTrue (JVal.bool true) [] rfl rfl).2 rfl, ?_⟩
  exact ((C3_auth_response (initConnector "h" 1 "pw" "acc") msgAuthFalse (JVal.bool false) []
    rfl rfl).1 rfl).2 byteDecodeFix decodeFix (initConnector "h" 1 "pw" "acc") fragAuthFalse
    [] (asciiBytes chunkAuthFalse) (by decide) (by decide) (by decide) rfl

/-- C2: a fragment that fails JSON decoding is logged and dropped: the
rest of the batch is processed from the same state with the same outcome,
only the bad-packet log line is added, and no error terminates the loop;
a batch splits into sequential processing of its two halves. -/
theorem C2_decode_failure (decode : String → Option JVal) (data : String)
    (st : ConnectorState) (bad : String) (rest fs1 : List String)
    (hbad : decode bad = none) (hne : bad ≠ "") :
    process_items decode data st (bad :: rest) =
      ⟨(process_items decode data st rest).st,
        Event.logged ("Bad message packet " ++ data ++ ", message " ++ bad) ::
          (process_items decode data st rest).evs,
        (process_items decode data st rest).err⟩ ∧
    process_items decode data st (fs1 ++ bad :: rest) =
      (process_items decode data st fs1).andThen fun st2 =>
        process_items decode data st2 (bad :: rest) := by
  constructor
  · have hpd : process_data_item decode data st bad =
        stepOk st [Event.logged ("Bad message packet " ++ data ++ ", message " ++ bad)] := by
      simp only [process_data_item, if_neg hne, hbad]
    rw [show process_items decode data st (bad :: rest) =
      (process_data_item decode data st bad).andThen
        (fun st2 => process_items decode data st2 rest) from rfl]
    rw [hpd, stepOk_andThen]
    rfl
  · exact process_items_append decode data (bad :: rest) fs1 st

/-- Witness for C2: a garbage fragment between two well-formed auth
fragments is logged and dropped and the rest of the batch is processed. -/
theorem C2_witness :
    process_items decodeFix "w" stConnecting ["garbage", fragAuthTrue] =
      ⟨(process_items decodeFix "w" stConnecting [fragAuthTrue]).st,
        Event.logged ("Bad message packet w, message garbage") ::
          (process_items decodeFix "w" stConnecting [fragAuthTrue]).evs,
        (process_items decodeFix "w" stConnecting [fragAuthTrue]).err⟩ ∧
    process_items decodeFix "w" stConnecting ([fragAuthTrue] ++ "garbage" :: [fragAuthTrue]) =
      (process_items decodeFix "w" stConnecting [fragAuthTrue]).andThen fun st2 =>
        process_items decodeFix "w" st2 ("garbage" :: [fragAuthTrue]) :=
  C2_decode_failure decodeFix "w" stConnecting "garbage" [fragAuthTrue] [fragAuthTrue]
    rfl (by decide)

/-- C5: on a fresh connector, n sendOrder calls complete without error,
leave the counter at n, and the wire traffic is exactly, per call in
order, one sendTransaction and one OnTransReply request embedding the
transaction ids 1, 2, ..., n: unique, strictly increasing, no gaps, the
n-th call using id n. -/
theorem C5_transaction_ids (host : String) (port : Nat) (passwd account : String)
    (orders : List (String × String × Nat)) :
    (send_orders (initConnector host port passwd account) orders).err = none ∧
    (send_orders (initConnector host port passwd account) orders).st.last_trans_id =
      orders.length ∧
    sentPayloads (send_orders (initConnector host port passwd account) orders).evs =
      orderSendsFrom account 1 orders := by
  obtain ⟨h1, h2, h3⟩ := send_orders_spec orders (initConnector host port passwd account)
  refine ⟨h1, ?_, ?_⟩
  · rw [h2]
    show 0 + orders.length = orders.length
    omega
  · exact h3

/-- C6: a dispatched OnAllTrade push event extracts class code, security
code, price and quantity; when a feed callback is registered under the
(class, code) pair it is invoked exactly once with those four arguments,
and when none is registered nothing is invoked and no error is raised. -/
theorem C6_on_all_trade_dispatch (st : ConnectorState) (msg : JVal)
    (rfields : List (String × JVal)) (cc sc : String) (p q : JVal)
    (hcb : getItem msg "callback_name" = Except.ok (JVal.str "OnAllTrade"))
    (hres : getItem msg "result" = Except.ok (JVal.obj rfields))
    (hc : jlookup rfields "class_code" = some (JVal.str cc))
    (hs : jlookup rfields "sec_code" = some (JVal.str sc))
    (hp : jlookup rfields "price" = some p)
    (hq : jlookup rfields "qty" = some q) :
    (∀ cb : Nat, lookupFeedCallback (cc, sc) st.feed_callbacks = some cb →
      callback_method st msg = stepOk st
        [ Event.logged ("Feed callback found for class_code=" ++ cc ++ ", sec_code=" ++ sc),
          Event.invokedFeed st.status cb cc sc p q ]) ∧
    (lookupFeedCallback (cc, sc) st.feed_callbacks = none →
      callback_method st msg = stepOk st []) := by
  have hgc : getItem (JVal.obj rfields) "class_code" = Except.ok (JVal.str cc) := by
    simp only [getItem, hc]
  have hgs : getItem (JVal.obj rfields) "sec_code" = Except.ok (JVal.str sc) := by
    simp only [getItem, hs]
  have hgp : getItem (JVal.obj rfields) "price" = Except.ok p := by
    simp only [getItem, hp]
  have hgq : getItem (JVal.obj rfields) "qty" = Except.ok q := by
    simp only [getItem, hq]
  constructor
  · intro cb hfound
    simp only [callback_method, hcb,
      show switcherGet (JVal.str "OnAllTrade") = Except.ok (some PushHandler.onAllTrade)
        from rfl,
      on_all_trade, if_pos rfl, if_true, hres, hgc, hgs, hgp, hgq, feedGet, hfound]
  · intro hnone
    simp only [callback_method, hcb,
      show switcherGet (JVal.str "OnAllTrade") = Except.ok (some PushHandler.onAllTrade)
        from rfl,
      on_all_trade, if_pos rfl, if_true, hres, hgc, hgs, feedGet, hnone]

/-- Witness for C6: the concrete OnAllTrade message once with the pair
registered and once with an empty registry. -/
theorem C6_witness :
    callback_method stSubscribed msgAllTrade = stepOk stSubscribed
      [ Event.logged "Feed callback found for class_code=SPBFUT, sec_code=RIU8",
        Event.invokedFeed Status.connecting 7 "SPBFUT" "RIU8" (JVal.num 100) (JVal.num 2) ] ∧
    callback_method stConnecting msgAllTrade = stepOk stConnecting [] := by
  constructor
  · exact (C6_on_all_trade_dispatch stSubscribed msgAllTrade
      [("class_code", JVal.str "SPBFUT"), ("sec_code", JVal.str "RIU8"),
       ("price", JVal.num 100), ("qty", JVal.num 2)] "SPBFUT" "RIU8"
      (JVal.num 100) (JVal.num 2) rfl rfl rfl rfl rfl rfl).1 7 rfl
  · exact (C6_on_all_trade_dispatch stConnecting msgAllTrade
      [("class_code", JVal.str "SPBFUT"), ("sec_code", JVal.str "RIU8"),
       ("price", JVal.num 100), ("qty", JVal.num 2)] "SPBFUT" "RIU8"
      (JVal.num 100) (JVal.num 2) rfl rfl rfl rfl rfl rfl).2 rfl

/-- Dispatch of a fragment batch when no handler raises: one handler call
per decoded known-id message, in batch order. -/
theorem process_items_handlerCalls (decode : String → Option JVal) (data : String) :
    ∀ (items : List String) (st : ConnectorState) (msgs : List JVal),
      (items.filter (fun f => f != "")).map decode = msgs.map some →
      (∀ m ∈ msgs, ∃ i, getItem m "id" = Except.ok (JVal.str i) ∧
        (i = MSG_ID_AUTH ∨ i = MSG_ID_CREATE_DATASOURCE ∨ i = "callback")) →
      (process_items decode data st items).err = none →
      handlerCalls (process_items decode data st items).evs = msgs := by
  intro items
  induction items with
  | nil =>
      intro st msgs hdec _ _
      cases msgs with
      | nil => rfl
      | cons m ms => exact absurd hdec (by simp)
  | cons i rest ih =>
      intro st msgs hdec hids hok
      by_cases hi : i = ""
      · subst hi
        have hf : (("" :: rest).filter (fun f => f != "")) =
            rest.filter (fun f => f != "") := by
          simp [List.filter_cons]
        rw [hf] at hdec
        rw [show process_items decode data st ("" :: rest) =
          (process_data_item decode data st "").andThen
            (fun st2 => process_items decode data st2 rest) from rfl,
          show process_data_item decode data st "" = stepOk st [] from rfl,
          stepOk_andThen] at hok ⊢
        show handlerCalls (process_items decode data st rest).evs = msgs
        exact ih st msgs hdec hids hok
      · have hf : ((i :: rest).filter (fun f => f != "")) =
            i :: rest.filter (fun f => f != "") := by
          simp [List.filter_cons, hi]
        rw [hf] at hdec
        cases msgs with
        | nil => exact absurd hdec (by simp)
        | cons m ms =>
            rw [List.map_cons, List.map_cons] at hdec
            injection hdec with h1 h2
            obtain ⟨idStr, hid, hkn⟩ := hids m (List.mem_cons_self m ms)
            have hex : ∃ hh : Handler,
                callbacksGet (JVal.str idStr) = Except.ok (some hh) := by
              rcases hkn with h | h | h
              all_goals subst h
              · exact ⟨Handler.on_auth, rfl⟩
              · exact ⟨Handler.on_create_datasource, rfl⟩
              · exact ⟨Handler.callback_method, rfl⟩
            obtain ⟨hh, hcg⟩ := hex
            have hpd : process_data_item decode data st i =
                ⟨(runHandler hh st m).st,
                  Event.handlerCall m :: (runHandler hh st m).evs,
                  (runHandler hh st m).err⟩ := by
              simp only [process_data_item, if_neg hi, h1, hid, hcg]
            rw [show process_items decode data st (i :: rest) =
              (process_data_item decode data st i).andThen
                (fun st2 => process_items decode data st2 rest) from rfl, hpd] at hok ⊢
            cases hherr : (runHandler hh st m).err with
            | some e =>
                have herr2 : (Step.mk (runHandler hh st m).st
                    (Event.handlerCall m :: (runHandler hh st m).evs)
                    (runHandler hh st m).err).err = some e := hherr
                rw [andThen_eq_of_err_some _ _ e herr2] at hok
                have hok2 : (runHandler hh st m).err = none := hok
                rw [hherr] at hok2
                exact Option.noConfusion hok2
            | none =>
                have herr2 : (Step.mk (runHandler hh st m).st
                    (Event.handlerCall m :: (runHandler hh st m).evs)
                    (runHandler hh st m).err).err = none := hherr
                rw [andThen_eq_of_err_none _ _ herr2] at hok
                have herr3 : (Step.mk (runHandler hh st m).st
                    (Event.handlerCall m :: (runHandler hh st m).evs)
                    (none : Option PyErr)).err = none := rfl
                rw [andThen_eq_of_err_none _ _ herr3]
                show m :: handlerCalls ((runHandler hh st m).evs ++
                  (process_items decode data (runHandler hh st m).st rest).evs) = m :: ms
                rw [handlerCalls_append, runHandler_handlerCalls, List.nil_append]
                have hok3 : (process_items decode data (runHandler hh st m).st rest).err =
                    none := hok
                have hids2 : ∀ m2 ∈ ms, ∃ i2, getItem m2 "id" = Except.ok (JVal.str i2) ∧
                    (i2 = MSG_ID_AUTH ∨ i2 = MSG_ID_CREATE_DATASOURCE ∨ i2 = "callback") :=
                  fun m2 hm2 => hids m2 (List.mem_cons_of_mem m hm2)
                rw [ih (runHandler hh st m).st ms h2 hids2 hok3]

/-- C1 counterexample: a chunk that is a well-formed delimiter-joined
batch of two JSON messages, both carrying the known id msg_auth, yields
only one handler call: the first handler raises ConnectionError and the
rest of the batch is abandoned, so the dispatch does not perform one call
per message. -/
theorem C1_counterexample :
    (pySplit MSG_DELIMITER chunkAuthFalsePair).filter (fun f => f != "") =
      [fragAuthFalse, fragAuthTrue] ∧
    decodeFix fragAuthFalse = some msgAuthFalse ∧
    decodeFix fragAuthTrue = some msgAuthTrue ∧
    getItem msgAuthFalse "id" = Except.ok (JVal.str MSG_ID_AUTH) ∧
    getItem msgAuthTrue "id" = Except.ok (JVal.str MSG_ID_AUTH) ∧
    handlerCalls (dispatch_chunk decodeFix stConnecting chunkAuthFalsePair).evs =
      [msgAuthFalse] ∧
    (dispatch_chunk decodeFix stConnecting chunkAuthFalsePair).err =
      some (PyErr.connectionError "Quik LUA authentication failed") :=
  ⟨by decide, rfl, rfl, rfl, rfl, rfl, rfl⟩

/-- C1 amended: for a well-formed delimiter-joined batch of N known-id
messages whose dispatched handlers all return normally, the receive-loop
dispatch performs exactly N handler calls, one per message, in batch
order, with empty fragments skipped; a handler that raises (such as an
auth-failure response) cuts the batch short. -/
theorem C1_batch_dispatch (decode : String → Option JVal) (st : ConnectorState)
    (data : String) (msgs : List JVal)
    (hdec : ((pySplit MSG_DELIMITER data).filter (fun f => f != "")).map decode =
      msgs.map some)
    (hids : ∀ m ∈ msgs, ∃ i, getItem m "id" = Except.ok (JVal.str i) ∧
      (i = MSG_ID_AUTH ∨ i = MSG_ID_CREATE_DATASOURCE ∨ i = "callback"))
    (hok : (dispatch_chunk decode st data).err = none) :
    handlerCalls (dispatch_chunk decode st data).evs = msgs :=
  process_items_handlerCalls decode data (pySplit MSG_DELIMITER data) st msgs hdec hids hok

/-- Witness for the amended C1 at a concrete one-message batch. -/
theorem C1_witness :
    handlerCalls (dispatch_chunk decodeFix stConnecting chunkAuthTrue).evs =
      [msgAuthTrue] :=
  C1_batch_dispatch decodeFix stConnecting chunkAuthTrue [msgAuthTrue] rfl
    (fun m hm => by
      rcases List.mem_singleton.mp hm with rfl
      exact ⟨MSG_ID_AUTH, rfl, Or.inl rfl⟩)
    rfl

/-- Invoked-feed projection of the startup events is empty. -/
theorem startupEvents_invoked (st : ConnectorState) :
    invokedStatuses (startupEvents st) = [] := by
  unfold startupEvents
  rw [invokedStatuses_append, createDSEvents_invoked]
  rfl

/-- Send events of the startup phase: the auth request followed by one
CreateDataSource request per registered key, all UTF-8 encoded. -/
theorem startupEvents_sent (st : ConnectorState) :
    sentPayloads (startupEvents st) =
      ("UTF-8", authMsg st.passwd) ::
        st.feed_callbacks.map (fun p => ("UTF-8", create_datasource_msg p.1.1 p.1.2)) := by
  unfold startupEvents
  rw [sentPayloads_append, createDSEvents_sent]
  rfl

/-- Every startup send uses the UTF-8 encoding. -/
theorem startupEvents_sent_utf8 (st : ConnectorState) :
    ∀ p ∈ sentPayloads (startupEvents st), p.1 = "UTF-8" := by
  intro p hp
  rw [startupEvents_sent] at hp
  rcases List.mem_cons.mp hp with h | h
  · rw [h]
  · obtain ⟨q, _, hq⟩ := List.mem_map.mp h
    rw [← hq]

/-- C4 counterexample: with one pending subscription registered, the auth
handler that performs the Connecting → Connected transition sends
nothing, so reaching Connected triggers no CreateDataSource request; in
the full session the single CreateDataSource request was already sent
during run startup, before the auth response arrived. -/
theorem C4_counterexample :
    stSubscribed.feed_callbacks = [(("SPBFUT", "RIU8"), 7)] ∧
    (on_auth stSubscribed msgAuthTrue).st.status = Status.connected ∧
    sentPayloads (on_auth stSubscribed msgAuthTrue).evs = [] ∧
    sentPayloads (sessionRun byteDecodeFix decodeFix "h" 1 "pw" "acc"
      [("SPBFUT", "RIU8", 7)] [asciiBytes chunkAuthTrue]).evs =
      [("UTF-8", authMsg "pw"), ("UTF-8", create_datasource_msg "SPBFUT" "RIU8")] ∧
    (sessionRun byteDecodeFix decodeFix "h" 1 "pw" "acc"
      [("SPBFUT", "RIU8", 7)] [asciiBytes chunkAuthTrue]).err = none :=
  ⟨rfl, rfl, rfl, rfl, rfl⟩

/-- C4 amended: subscribe while not Connected records the callback and
sends nothing at call time; re-subscribing a key overwrites its callback
and leaves a single registry entry; the CreateDataSource replay happens
inside run at startup, right after the auth request and while the status
is still Connecting, with exactly one request per registered key; the
transition to Connected on a true auth result sends nothing. -/
theorem C4_subscribe_replay :
    (∀ (st : ConnectorState) (n c : String) (cb : Nat), st.status ≠ Status.connected →
      subscribe st n c cb =
        stepOk { st with
          feed_callbacks := insertFeedCallback (n, c) cb st.feed_callbacks } []) ∧
    (∀ (k : String × String) (v : Nat) (l : List ((String × String) × Nat)),
      countKey k l ≤ 1 →
      countKey k (insertFeedCallback k v l) = 1 ∧
      lookupFeedCallback k (insertFeedCallback k v l) = some v) ∧
    (∀ st : ConnectorState,
      create_subscribers_datasources st = stepOk st (createDSEvents st.feed_callbacks) ∧
      sentPayloads (createDSEvents st.feed_callbacks) =
        st.feed_callbacks.map (fun p => ("UTF-8", create_datasource_msg p.1.1 p.1.2))) ∧
    (∀ (st : ConnectorState) (msg r0 : JVal) (rest : List JVal),
      getItem msg "result" = Except.ok (JVal.arr (r0 :: rest)) → r0.truthy = true →
      sentPayloads (on_auth st msg).evs = [] ∧
      (on_auth st msg).st.status = Status.connected) ∧
    (∀ (bd : String → List Nat → Option String) (d : String → Option JVal)
       (st : ConnectorState) (chunks : List (List Nat)),
      (connect_sock st).st.status = Status.connecting ∧
      (∀ s : ConnectorState, (auth s).st = s) ∧
      ∃ tail, (run bd d st chunks).evs = startupEvents st ++ tail) := by
  refine ⟨subscribe_not_connected, ?_, ?_, ?_, ?_⟩
  · intro k v l hle
    exact ⟨countKey_insertFeedCallback k v l hle, lookup_insertFeedCallback_self k v l⟩
  · intro st
    exact ⟨create_subscribers_datasources_eq st, createDSEvents_sent st.feed_callbacks⟩
  · intro st msg r0 rest hres ht
    rw [on_auth_true_eq st msg r0 rest hres ht]
    exact ⟨rfl, rfl⟩
  · intro bd d st chunks
    refine ⟨rfl, fun s => rfl, ?_⟩
    cases herr : (run_loop bd d (startupState st) chunks).err with
    | none =>
        rw [run_eq_none bd d st chunks herr]
        exact ⟨(run_loop bd d (startupState st) chunks).evs ++
          [Event.logged "Interrupted by user", Event.logged "Disconnected"],
          by rw [List.append_assoc]⟩
    | some e =>
        rw [run_eq_some bd d st chunks e herr]
        exact ⟨(run_loop bd d (startupState st) chunks).evs, rfl⟩

/-- Witness for the amended C4 at concrete inputs. -/
theorem C4_witness :
    subscribe stConnecting "SPBFUT" "RIU8" 7 =
      stepOk { stConnecting with
        feed_callbacks :=
          insertFeedCallback ("SPBFUT", "RIU8") 7 stConnecting.feed_callbacks } [] ∧
    countKey ("SPBFUT", "RIU8")
      (insertFeedCallback ("SPBFUT", "RIU8") 8 stSubscribed.feed_callbacks) = 1 ∧
    lookupFeedCallback ("SPBFUT", "RIU8")
      (insertFeedCallback ("SPBFUT", "RIU8") 8 stSubscribed.feed_callbacks) = some 8 ∧
    sentPayloads (on_auth stSubscribed msgAuthTrue).evs = [] ∧
    ∃ tail, (run byteDecodeFix decodeFix stSubscribed [asciiBytes chunkAuthTrue]).evs =
      startupEvents stSubscribed ++ tail := by
  obtain ⟨ha, hb, hc, hd, he⟩ := C4_subscribe_replay
  refine ⟨ha stConnecting "SPBFUT" "RIU8" 7 (by decide), ?_, ?_, ?_, ?_⟩
  · exact (hb ("SPBFUT", "RIU8") 8 stSubscribed.feed_callbacks (by decide)).1
  · exact (hb ("SPBFUT", "RIU8") 8 stSubscribed.feed_callbacks (by decide)).2
  · exact (hd stSubscribed msgAuthTrue (JVal.bool true) [] rfl rfl).1
  · exact (he byteDecodeFix decodeFix stSubscribed [asciiBytes chunkAuthTrue]).2.2

set_option maxRecDepth 10000 in
/-- C7 counterexample: a session that registers a feed callback and then
receives an OnAllTrade chunk before any auth response invokes the feed
callback while the status is Connecting, not Connected. -/
theorem C7_counterexample :
    invokedStatuses (sessionRun byteDecodeFix decodeFix "h" 1 "pw" "acc"
      [("SPBFUT", "RIU8", 7)] [asciiBytes chunkAllTrade]).evs = [Status.connecting] ∧
    Status.connecting ≠ Status.connected :=
  ⟨rfl, by decide⟩

/-- C7 amended: the dispatch loop performs no status check, so a feed
callback can fire while Connecting as well as while Connected; it can
never fire while Disconnected, because dispatch only runs between the
connect step (which sets Connecting) and loop exit. -/
theorem C7_feed_callback_status (bd : String → List Nat → Option String)
    (d : String → Option JVal) (host : String) (port : Nat)
    (passwd account : String) (subs : List (String × String × Nat))
    (chunks : List (List Nat)) :
    ∀ s ∈ invokedStatuses
      (sessionRun bd d host port passwd account subs chunks).evs,
      s ≠ Status.disconnected := by
  intro s hs
  rw [show sessionRun bd d host port passwd account subs chunks =
    (subscribeAll (initConnector host port passwd account) subs).andThen
      (fun st => run bd d st chunks) from rfl,
    andThen_eq_of_err_none _ _
      (subscribeAll_err subs (initConnector host port passwd account))] at hs
  have hs2 : s ∈ invokedStatuses
      ((subscribeAll (initConnector host port passwd account) subs).evs ++
        (run bd d (subscribeAll (initConnector host port passwd account) subs).st
          chunks).evs) := hs
  rw [invokedStatuses_append,
    subscribeAll_invoked subs (initConnector host port passwd account),
    List.nil_append] at hs2
  set st0 := (subscribeAll (initConnector host port passwd account) subs).st with hst0
  cases herr : (run_loop bd d (startupState st0) chunks).err with
  | none =>
      rw [run_eq_none bd d st0 chunks herr] at hs2
      have hs3 : s ∈ invokedStatuses
          ((startupEvents st0 ++ (run_loop bd d (startupState st0) chunks).evs) ++
            [Event.logged "Interrupted by user", Event.logged "Disconnected"]) := hs2
      rw [invokedStatuses_append, invokedStatuses_append, startupEvents_invoked,
        List.nil_append] at hs3
      rcases List.mem_append.mp hs3 with h | h
      · exact run_loop_invoked bd d chunks (startupState st0)
          (fun hcon => Status.noConfusion hcon) s h
      · exact absurd h (List.not_mem_nil s)
  | some e =>
      rw [run_eq_some bd d st0 chunks e herr] at hs2
      have hs3 : s ∈ invokedStatuses (startupEvents st0 ++
          (run_loop bd d (startupState st0) chunks).evs) := hs2
      rw [invokedStatuses_append, startupEvents_invoked, List.nil_append] at hs3
      exact run_loop_invoked bd d chunks (startupState st0)
        (fun hcon => Status.noConfusion hcon) s hs3

set_option maxRecDepth 10000 in
/-- Witness for the amended C7: the concrete session of the
counterexample has an invocation recorded at status Connecting, and the
theorem applied to it yields that this status is not Disconnected. -/
theorem C7_witness : Status.connecting ≠ Status.disconnected :=
  C7_feed_callback_status byteDecodeFix decodeFix "h" 1 "pw" "acc"
    [("SPBFUT", "RIU8", 7)] [asciiBytes chunkAllTrade] Status.connecting (by decide)

/-- C8 counterexample: after an orderly run shutdown the status is
Disconnected yet the socket handle field still holds the (closed) socket:
the handle is never cleared, so the claimed iff fails. -/
theorem C8_counterexample :
    (sessionRun byteDecodeFix decodeFix "h" 1 "pw" "acc" [] []).st.status =
      Status.disconnected ∧
    (sessionRun byteDecodeFix decodeFix "h" 1 "pw" "acc" [] []).st.sock = some false ∧
    some false ≠ (none : Option Bool) :=
  ⟨rfl, rfl, by decide⟩

/-- C8 amended: the handle is absent in the initial Disconnected state;
_connect_sock sets an open handle together with status Connecting; the
receive loop never changes the handle; and orderly shutdown sets status
Disconnected and closes the socket but leaves the closed handle in the
field instead of clearing it. -/
theorem C8_socket_handle :
    (∀ (host : String) (port : Nat) (passwd account : String),
      (initConnector host port passwd account).sock = none ∧
      (initConnector host port passwd account).status = Status.disconnected) ∧
    (∀ st : ConnectorState,
      (connect_sock st).st.sock = some true ∧
      (connect_sock st).st.status = Status.connecting) ∧
    (∀ (bd : String → List Nat → Option String) (d : String → Option JVal)
       (chunks : List (List Nat)) (st : ConnectorState),
      (run_loop bd d st chunks).st.sock = st.sock) ∧
    (∀ (bd : String → List Nat → Option String) (d : String → Option JVal)
       (st : ConnectorState) (chunks : List (List Nat)),
      (run bd d st chunks).err = none →
      (run bd d st chunks).st.status = Status.disconnected ∧
      (run bd d st chunks).st.sock = some false) := by
  refine ⟨fun host port passwd account => ⟨rfl, rfl⟩, fun st => ⟨rfl, rfl⟩,
    fun bd d chunks st => run_loop_sock bd d chunks st, ?_⟩
  intro bd d st chunks hok
  cases herr : (run_loop bd d (startupState st) chunks).err with
  | some e =>
      rw [run_eq_some bd d st chunks e herr] at hok
      exact Option.noConfusion hok
  | none =>
      rw [run_eq_none bd d st chunks herr]
      constructor
      · rfl
      · show ((run_loop bd d (startupState st) chunks).st.sock).map (fun _ => false) =
          some false
        rw [run_loop_sock]
        rfl

/-- Witness for the amended C8 at a concrete session. -/
theorem C8_witness :
    (initConnector "h" 1 "pw" "acc").sock = none ∧
    (connect_sock stConnecting).st.sock = some true ∧
    (run byteDecodeFix decodeFix (initConnector "h" 1 "pw" "acc") []).st.status =
      Status.disconnected ∧
    (run byteDecodeFix decodeFix (initConnector "h" 1 "pw" "acc") []).st.sock =
      some false := by
  obtain ⟨ha, hb, hc, hd⟩ := C8_socket_handle
  refine ⟨(ha "h" 1 "pw" "acc").1, (hb stConnecting).1, ?_, ?_⟩
  · exact (hd byteDecodeFix decodeFix (initConnector "h" 1 "pw" "acc") [] rfl).1
  · exact (hd byteDecodeFix decodeFix (initConnector "h" 1 "pw" "acc") [] rfl).2

/-- C9 counterexample: a whole session sends its only outgoing message
(the auth request) encoded with UTF-8, which is not the msg_encoding
codepage 1251 used for decoding incoming chunks, so outgoing traffic is
not encoded with the legacy Cyrillic codepage. -/
theorem C9_counterexample :
    sentEncodings (sessionRun byteDecodeFix decodeFix "h" 1 "pw" "acc" [] []).evs =
      ["UTF-8"] ∧
    msg_encoding = "1251" ∧
    ("UTF-8" : String) ≠ msg_encoding :=
  ⟨rfl, rfl, by decide⟩

/-- Every request built by orderSendsFrom carries the UTF-8 encoding. -/
theorem orderSendsFrom_utf8 (account : String) :
    ∀ (orders : List (String × String × Nat)) (tid : Nat),
      ∀ p ∈ orderSendsFrom account tid orders, p.1 = "UTF-8" := by
  intro orders
  induction orders with
  | nil =>
      intro tid p hp
      exact absurd hp (List.not_mem_nil p)
  | cons o rest ih =>
      rcases o with ⟨c, s, q⟩
      intro tid p hp
      rcases List.mem_cons.mp hp with h | h
      · rw [h]
      · rcases List.mem_cons.mp h with h2 | h2
        · rw [h2]
        · exact ih (tid + 1) p h2

/-- C9 amended: incoming chunks are decoded with the fixed codepage 1251
(the receive loop consults the byte decoder only at msg_encoding), while
every outgoing message is encoded with UTF-8: the auth request and the
CreateDataSource requests of a session, and the sendTransaction and
OnTransReply requests of any sequence of _send_order calls. -/
theorem C9_wire_encodings :
    msg_encoding = "1251" ∧
    (∀ (f g : String → List Nat → Option String) (d : String → Option JVal)
       (st : ConnectorState) (chunks : List (List Nat)),
      (∀ raw, f msg_encoding raw = g msg_encoding raw) →
      run_loop f d st chunks = run_loop g d st chunks) ∧
    (∀ (bd : String → List Nat → Option String) (d : String → Option JVal)
       (host : String) (port : Nat) (passwd account : String)
       (subs : List (String × String × Nat)) (chunks : List (List Nat)),
      ∀ p ∈ sentPayloads (sessionRun bd d host port passwd account subs chunks).evs,
        p.1 = "UTF-8") ∧
    (∀ (st : ConnectorState) (orders : List (String × String × Nat)),
      ∀ p ∈ sentPayloads (send_orders st orders).evs, p.1 = "UTF-8") := by
  refine ⟨rfl, ?_, ?_, ?_⟩
  · intro f g d st chunks h
    induction chunks generalizing st with
    | nil => rfl
    | cons raw rest ih =>
        have hrecv : process_recv f d st raw = process_recv g d st raw := by
          unfold process_recv
          rw [h raw]
        rw [show run_loop f d st (raw :: rest) = (process_recv f d st raw).andThen
            (fun st2 => run_loop f d st2 rest) from rfl,
          show run_loop g d st (raw :: rest) = (process_recv g d st raw).andThen
            (fun st2 => run_loop g d st2 rest) from rfl, hrecv]
        congr 1
        funext st2
        exact ih st2
  · intro bd d host port passwd account subs chunks p hp
    rw [show sessionRun bd d host port passwd account subs chunks =
      (subscribeAll (initConnector host port passwd account) subs).andThen
        (fun st => run bd d st chunks) from rfl,
      andThen_eq_of_err_none _ _
        (subscribeAll_err subs (initConnector host port passwd account))] at hp
    have hp2 : p ∈ sentPayloads
        ((subscribeAll (initConnector host port passwd account) subs).evs ++
          (run bd d (subscribeAll (initConnector host port passwd account) subs).st
            chunks).evs) := hp
    rw [sentPayloads_append] at hp2
    rcases List.mem_append.mp hp2 with h | h
    · exact subscribeAll_sent_utf8 subs (initConnector host port passwd account) p h
    · set st0 := (subscribeAll (initConnector host port passwd account) subs).st with hst0
      cases herr : (run_loop bd d (startupState st0) chunks).err with
      | none =>
          rw [run_eq_none bd d st0 chunks herr] at h
          have h3 : p ∈ sentPayloads
              ((startupEvents st0 ++ (run_loop bd d (startupState st0) chunks).evs) ++
                [Event.logged "Interrupted by user", Event.logged "Disconnected"]) := h
          rw [sentPayloads_append, sentPayloads_append,
            run_loop_sent bd d chunks (startupState st0)] at h3
          rcases List.mem_append.mp h3 with h4 | h4
          · rcases List.mem_append.mp h4 with h5 | h5
            · exact startupEvents_sent_utf8 st0 p h5
            · exact absurd h5 (List.not_mem_nil p)
          · exact absurd h4 (List.not_mem_nil p)
      | some e =>
          rw [run_eq_some bd d st0 chunks e herr] at h
          have h3 : p ∈ sentPayloads (startupEvents st0 ++
              (run_loop bd d (startupState st0) chunks).evs) := h
          rw [sentPayloads_append, run_loop_sent bd d chunks (startupState st0)] at h3
          rcases List.mem_append.mp h3 with h4 | h4
          · exact startupEvents_sent_utf8 st0 p h4
          · exact absurd h4 (List.not_mem_nil p)
  · intro st orders p hp
    rw [(send_orders_spec orders st).2.2] at hp
    exact orderSendsFrom_utf8 st.account orders (st.last_trans_id + 1) p hp

set_option maxRecDepth 10000 in
/-- Witness for the amended C9: the loop result is insensitive to the
byte decoder outside msg_encoding, the concrete auth send of a session
carries the UTF-8 encoding, and so do the sendTransaction and
OnTransReply sends of a concrete _send_order call. -/
theorem C9_witness :
    run_loop byteDecodeFix decodeFix stConnecting [asciiBytes chunkAllTrade] =
      run_loop (fun enc raw => byteDecodeFix enc raw) decodeFix stConnecting
        [asciiBytes chunkAllTrade] ∧
    (("UTF-8", authMsg "pw") : String × String).1 = "UTF-8" ∧
    (("UTF-8", order_msg_str "acc" "SPBFUT" "RIU8" 1 1) : String × String).1 = "UTF-8" ∧
    (("UTF-8", trans_reply_msg_str 1) : String × String).1 = "UTF-8" := by
  obtain ⟨_, hloop, hsent, horders⟩ := C9_wire_encodings
  refine ⟨hloop byteDecodeFix (fun enc raw => byteDecodeFix enc raw) decodeFix
    stConnecting [asciiBytes chunkAllTrade] (fun raw => rfl), ?_, ?_, ?_⟩
  · exact hsent byteDecodeFix decodeFix "h" 1 "pw" "acc" [] []
      ("UTF-8", authMsg "pw") (by decide)
  · exact horders (initConnector "h" 1 "pw" "acc") [("SPBFUT", "RIU8", 1)]
      ("UTF-8", order_msg_str "acc" "SPBFUT" "RIU8" 1 1) (by decide)
  · exact horders (initConnector "h" 1 "pw" "acc") [("SPBFUT", "RIU8", 1)]
      ("UTF-8", trans_reply_msg_str 1) (by decide)

end PyTrade
